import Mathlib

/-!
Verification of the Health-chain-stellar lifebank-soroban contracts
(inventory and requests) against their natural-language specification.

The two Soroban contracts are shallowly embedded: contract storage becomes an
explicit state record, the ledger clock becomes a `now : Nat` parameter,
`Address` becomes `Nat`, and each public entry point becomes a function
returning `Except ContractError` of its result and the updated state.  The
Soroban host rolls an invocation's storage writes back when the invocation
returns an error, so the trace runners below keep the pre-call state on
`Except.error`.

Files present in the repository (authoritative): inventory/src/lib.rs,
inventory/src/storage.rs, inventory/src/error.rs, inventory/src/events.rs,
inventory/src/test.rs, requests/src/lib.rs, requests/src/events.rs,
requests/src/test.rs.  The modules inventory/src/{types,validation}.rs and
requests/src/{error,storage,types,validation}.rs are declared and used by the
code above but are not in the repository; definitions for them below are
modelled from the spec (each such definition's doc comment says so).
-/

namespace HealthChain

/-- Blood type enum of the 8 ABO/Rh combinations. Modelled from the spec:
types.rs is not in the repository; the constructor names are pinned by the
test files (BloodType::APositive, ..., BloodType::ONegative). -/
inductive BloodType where
  | APositive
  | ANegative
  | BPositive
  | BNegative
  | ABPositive
  | ABNegative
  | OPositive
  | ONegative
deriving DecidableEq, Repr

/-- Error taxonomy. The first 21 constructors are inventory/src/error.rs
verbatim (codes 0..41 there).  The last four are modelled from the spec:
requests/src/error.rs is not in the repository; the spec names
`InvalidRequiredBy`, an "invalid delivery address" error, a
"NotAuthorizedHospital" authorization error and `CannotCancelRequest`, and
requests/src/test.rs pins their numeric codes (17, 19, 32, 42). -/
inductive ContractError where
  | AlreadyInitialized
  | NotInitialized
  | Unauthorized
  | InvalidAmount
  | InvalidAddress
  | InvalidInput
  | InvalidBloodType
  | InvalidStatus
  | InvalidTimestamp
  | InvalidQuantity
  | InvalidExpiration
  | AlreadyExists
  | NotFound
  | Expired
  | BloodUnitExpired
  | DuplicateBloodUnit
  | InsufficientBalance
  | InsufficientPermissions
  | NotAuthorizedBloodBank
  | BloodUnitNotAvailable
  | InvalidStatusTransition
  | NotAuthorizedHospital
  | InvalidRequiredBy
  | InvalidDeliveryAddress
  | CannotCancelRequest
deriving DecidableEq, Repr

namespace Inventory

/-- Blood unit status. Modelled from the spec: inventory/src/types.rs is not
in the repository; the spec lists Available, Reserved, Issued, Expired,
Discarded, of which only Available is produced by registration. -/
inductive BloodStatus where
  | Available
  | Reserved
  | Issued
  | Expired
  | Discarded
deriving DecidableEq, Repr

/-- A blood unit record. Modelled from the spec: inventory/src/types.rs is
not in the repository; the field list is pinned by lib.rs (the struct literal
in register_blood) and test.rs.  The open metadata map is carried as an
association list; registration always creates it empty (Map::new). -/
structure BloodUnit where
  id : Nat
  blood_type : BloodType
  quantity_ml : Nat
  bank_id : Nat
  donor_id : Option Nat
  donation_timestamp : Nat
  expiration_timestamp : Nat
  status : BloodStatus
  metadata : List (String × String)
deriving DecidableEq, Repr

/-- Maximum expiration time, 42 days for whole blood (storage.rs). -/
def MAX_EXPIRATION_DAYS : Nat := 42

/-- Seconds per day (storage.rs). -/
def SECONDS_PER_DAY : Nat := 86400

/-- The inventory contract's storage: the instance entries (admin, counter)
and the persistent entries (units by id, the four index buckets).  A bucket
that was never written reads as the empty list, and the counter entry as
absent, exactly as the unwrap_or defaults in storage.rs read them. -/
structure InvState where
  admin : Option Nat
  bloodUnitCounter : Option Nat
  units : Nat → Option BloodUnit
  bloodTypeIndex : BloodType → List Nat
  bankIndex : Nat → List Nat
  statusIndex : BloodStatus → List Nat
  donorIndex : Nat → List Nat

/-- The deployed-but-uninitialized contract: no storage entry exists. -/
def inv_init_state : InvState where
  admin := none
  bloodUnitCounter := none
  units := fun _ => none
  bloodTypeIndex := fun _ => []
  bankIndex := fun _ => []
  statusIndex := fun _ => []
  donorIndex := fun _ => []

namespace Storage

/-- storage.rs is_authorized_bank: a bank is authorized iff it equals the
admin. -/
def is_authorized_bank (s : InvState) (bank : Nat) : Bool :=
  s.admin == some bank

/-- storage.rs get_blood_unit_counter: the stored counter, or 0 when the
entry is absent (unwrap_or(0)). -/
def get_blood_unit_counter (s : InvState) : Nat :=
  s.bloodUnitCounter.getD 0

/-- storage.rs increment_blood_unit_id: read the counter, add one, persist,
return the new value. -/
def increment_blood_unit_id (s : InvState) : Nat × InvState :=
  let next_id := get_blood_unit_counter s + 1
  (next_id, { s with bloodUnitCounter := some next_id })

/-- storage.rs set_blood_unit: persist the unit under its id. -/
def set_blood_unit (s : InvState) (u : BloodUnit) : InvState :=
  { s with units := fun i => if i = u.id then some u else s.units i }

/-- storage.rs get_blood_unit: point lookup by id. -/
def get_blood_unit (s : InvState) (id : Nat) : Option BloodUnit :=
  s.units id

/-- storage.rs add_to_blood_type_index: append the unit's id to its blood
type's bucket. -/
def add_to_blood_type_index (s : InvState) (u : BloodUnit) : InvState :=
  { s with bloodTypeIndex := fun bt =>
      if bt = u.blood_type then s.bloodTypeIndex bt ++ [u.id] else s.bloodTypeIndex bt }

/-- storage.rs add_to_bank_index: append the unit's id to its bank's
bucket. -/
def add_to_bank_index (s : InvState) (u : BloodUnit) : InvState :=
  { s with bankIndex := fun b =>
      if b = u.bank_id then s.bankIndex b ++ [u.id] else s.bankIndex b }

/-- storage.rs add_to_status_index: append the unit's id to its status
bucket. -/
def add_to_status_index (s : InvState) (u : BloodUnit) : InvState :=
  { s with statusIndex := fun st =>
      if st = u.status then s.statusIndex st ++ [u.id] else s.statusIndex st }

/-- storage.rs add_to_donor_index: append the unit's id to the donor's
bucket when a donor is present; no entry is touched for an anonymous
donation. -/
def add_to_donor_index (s : InvState) (u : BloodUnit) : InvState :=
  match u.donor_id with
  | none => s
  | some donor =>
      { s with donorIndex := fun d =>
          if d = donor then s.donorIndex d ++ [u.id] else s.donorIndex d }

end Storage

/-- Modelled from the spec: inventory/src/validation.rs is not in the
repository.  validate_blood_registration checks the quantity range
([100, 600], failing InvalidQuantity) and that the expiration timestamp is
strictly in the future and at most 42 days out (failing InvalidExpiration);
the constants MAX_EXPIRATION_DAYS and SECONDS_PER_DAY are storage.rs. -/
def validate_blood_registration (now quantity_ml expiration_timestamp : Nat) :
    Except ContractError Unit :=
  if quantity_ml < 100 || quantity_ml > 600 then .error .InvalidQuantity
  else if expiration_timestamp ≤ now then .error .InvalidExpiration
  else if expiration_timestamp - now > MAX_EXPIRATION_DAYS * SECONDS_PER_DAY then
    .error .InvalidExpiration
  else .ok ()

/-- Modelled from the spec: inventory/src/validation.rs is not in the
repository.  The spec's second, separate shelf-life check: remaining time
must exceed one day (the "1-day-plus-ε floor"; test.rs pins the least
accepted expiration at now + 86400 + 1), failing InvalidExpiration. -/
def validate_minimum_shelf_life (now expiration_timestamp : Nat) :
    Except ContractError Unit :=
  if expiration_timestamp ≤ now + SECONDS_PER_DAY then .error .InvalidExpiration
  else .ok ()

/-- Modelled from the spec: inventory/src/types.rs is not in the repository.
BloodUnit::validate re-checks the entity invariants on the constructed
record at the current time: quantity in [100, 600], expiration strictly
after the current time and within the 42-day window. -/
def BloodUnit.validate (u : BloodUnit) (current_time : Nat) :
    Except ContractError Unit :=
  if u.quantity_ml < 100 || u.quantity_ml > 600 then .error .InvalidQuantity
  else if u.expiration_timestamp ≤ current_time then .error .InvalidExpiration
  else if u.expiration_timestamp - current_time > MAX_EXPIRATION_DAYS * SECONDS_PER_DAY then
    .error .InvalidExpiration
  else .ok ()

/-- lib.rs initialize: set the admin once; a second call fails
AlreadyInitialized.  (Named init_contract here.) -/
def init_contract (s : InvState) (admin : Nat) : Except ContractError InvState :=
  if s.admin.isSome then .error .AlreadyInitialized
  else .ok { s with admin := some admin }

/-- lib.rs register_blood, step for step: initialization check, bank
authorization, the two validations, id allocation, entity construction at
the ledger time, entity validation, persistence, the four index appends.
Returns the new id with the updated storage. -/
def register_blood (s : InvState) (now bank_id : Nat) (blood_type : BloodType)
    (quantity_ml expiration_timestamp : Nat) (donor_id : Option Nat) :
    Except ContractError (Nat × InvState) :=
  if s.admin.isNone then .error .NotInitialized
  else if !(Storage.is_authorized_bank s bank_id) then .error .NotAuthorizedBloodBank
  else match validate_blood_registration now quantity_ml expiration_timestamp with
  | .error e => .error e
  | .ok _ =>
    match validate_minimum_shelf_life now expiration_timestamp with
    | .error e => .error e
    | .ok _ =>
      let alloc := Storage.increment_blood_unit_id s
      let blood_unit : BloodUnit :=
        { id := alloc.1
          blood_type := blood_type
          quantity_ml := quantity_ml
          bank_id := bank_id
          donor_id := donor_id
          donation_timestamp := now
          expiration_timestamp := expiration_timestamp
          status := .Available
          metadata := [] }
      match blood_unit.validate now with
      | .error e => .error e
      | .ok _ =>
        let s2 := Storage.set_blood_unit alloc.2 blood_unit
        let s3 := Storage.add_to_blood_type_index s2 blood_unit
        let s4 := Storage.add_to_bank_index s3 blood_unit
        let s5 := Storage.add_to_status_index s4 blood_unit
        let s6 := Storage.add_to_donor_index s5 blood_unit
        .ok (alloc.1, s6)

/-- lib.rs get_blood_unit: point lookup, absence becomes NotFound. -/
def get_blood_unit (s : InvState) (blood_unit_id : Nat) :
    Except ContractError BloodUnit :=
  match Storage.get_blood_unit s blood_unit_id with
  | some u => .ok u
  | none => .error .NotFound

/-- One register_blood attempt's inputs (the ledger time and the call
arguments). -/
structure RegAttempt where
  now : Nat
  bank_id : Nat
  blood_type : BloodType
  quantity_ml : Nat
  expiration_timestamp : Nat
  donor_id : Option Nat

/-- Run one register_blood invocation with host semantics: on success keep
the new storage, on error the host rolls every write of the invocation
back. -/
def reg_step (s : InvState) (a : RegAttempt) : Option Nat × InvState :=
  match register_blood s a.now a.bank_id a.blood_type a.quantity_ml
      a.expiration_timestamp a.donor_id with
  | .ok (id, s') => (some id, s')
  | .error _ => (none, s)

/-- Run a sequence of register_blood attempts; collect the ids the
successful ones returned, in order. -/
def reg_run (s : InvState) : List RegAttempt → List Nat × InvState
  | [] => ([], s)
  | a :: rest =>
    let step := reg_step s a
    let tail := reg_run step.2 rest
    (match step.1 with
     | some id => id :: tail.1
     | none => tail.1, tail.2)

/-- The inventory contract's public operation surface (lib.rs): initialize,
register_blood, get_blood_unit. -/
inductive InvOp where
  | init_op (admin : Nat)
  | register_op (a : RegAttempt)
  | get_op (id : Nat)

/-- Apply one public inventory operation with host rollback on error. -/
def inv_apply_op (s : InvState) : InvOp → InvState
  | .init_op admin =>
    match init_contract s admin with
    | .ok s' => s'
    | .error _ => s
  | .register_op a => (reg_step s a).2
  | .get_op _ => s

end Inventory

namespace Requests

/-- Request status. Modelled from the spec: requests/src/types.rs is not in
the repository; the spec's state machine names Pending, Approved, InDelivery,
Completed, Cancelled, Expired. -/
inductive RequestStatus where
  | Pending
  | Approved
  | InDelivery
  | Completed
  | Cancelled
  | Expired
deriving DecidableEq, Repr

/-- Urgency level. Modelled from the spec: requests/src/types.rs is not in
the repository. -/
inductive UrgencyLevel where
  | Critical
  | Urgent
  | Normal
deriving DecidableEq, Repr

/-- Modelled from the spec: requests/src/types.rs is not in the repository.
RequestStatus::can_transition_to encodes the legal transitions:
Pending to Approved/Cancelled/Expired, Approved to
InDelivery/Cancelled/Expired, InDelivery to Completed; Completed, Cancelled
and Expired are terminal. -/
def RequestStatus.can_transition_to : RequestStatus → RequestStatus → Bool
  | .Pending, .Approved => true
  | .Pending, .Cancelled => true
  | .Pending, .Expired => true
  | .Approved, .InDelivery => true
  | .Approved, .Cancelled => true
  | .Approved, .Expired => true
  | .InDelivery, .Completed => true
  | _, _ => false

/-- Modelled from the spec: requests/src/types.rs is not in the repository.
RequestStatus::can_cancel permits cancellation only from Pending or
Approved. -/
def RequestStatus.can_cancel : RequestStatus → Bool
  | .Pending => true
  | .Approved => true
  | _ => false

/-- A blood request record. Modelled from the spec: requests/src/types.rs is
not in the repository; the field list is pinned by lib.rs (the struct
literal in create_request) and test.rs. -/
structure BloodRequest where
  id : Nat
  hospital_id : Nat
  blood_type : BloodType
  quantity_ml : Nat
  urgency : UrgencyLevel
  status : RequestStatus
  created_at : Nat
  required_by : Nat
  fulfilled_at : Option Nat
  assigned_units : List Nat
  delivery_address : String
  metadata : List (String × String)
deriving DecidableEq, Repr

/-- The requests contract's storage: admin, the hospital allow-list, the
request counter, the requests by id and the four index buckets.  Absent
entries read as their unwrap_or defaults (empty list, counter 0). -/
structure ReqState where
  admin : Option Nat
  hospitals : List Nat
  requestCounter : Option Nat
  requests : Nat → Option BloodRequest
  hospitalIndex : Nat → List Nat
  bloodTypeIndex : BloodType → List Nat
  statusIndex : RequestStatus → List Nat
  urgencyIndex : UrgencyLevel → List Nat

/-- The deployed-but-uninitialized requests contract. -/
def req_init_state : ReqState where
  admin := none
  hospitals := []
  requestCounter := none
  requests := fun _ => none
  hospitalIndex := fun _ => []
  bloodTypeIndex := fun _ => []
  statusIndex := fun _ => []
  urgencyIndex := fun _ => []

namespace Storage

/-- Modelled from the spec: requests/src/storage.rs is not in the
repository.  is_initialized tests whether the admin entry exists (lib.rs
calls it before every mutation). -/
def is_initialized (s : ReqState) : Bool :=
  s.admin.isSome

/-- Modelled from the spec: requests/src/storage.rs is not in the
repository.  set_admin persists the admin address. -/
def set_admin (s : ReqState) (admin : Nat) : ReqState :=
  { s with admin := some admin }

/-- Modelled from the spec: requests/src/storage.rs is not in the
repository.  authorize_hospital adds the hospital to the persisted
allow-list. -/
def authorize_hospital (s : ReqState) (hospital : Nat) : ReqState :=
  { s with hospitals :=
      if s.hospitals.contains hospital then s.hospitals else hospital :: s.hospitals }

/-- Modelled from the spec: requests/src/storage.rs is not in the
repository.  revoke_hospital removes the hospital from the allow-list. -/
def revoke_hospital (s : ReqState) (hospital : Nat) : ReqState :=
  { s with hospitals := s.hospitals.filter (fun h => h ≠ hospital) }

/-- Modelled from the spec: requests/src/storage.rs is not in the
repository.  is_authorized_hospital: the admin is always authorized
(test.rs test_admin_is_always_authorized), else membership in the
allow-list. -/
def is_authorized_hospital (s : ReqState) (hospital : Nat) : Bool :=
  s.admin == some hospital || s.hospitals.contains hospital

/-- Modelled from the spec: requests/src/storage.rs is not in the
repository.  The request counter entry, or 0 when absent, mirroring
inventory/src/storage.rs get_blood_unit_counter. -/
def get_request_counter (s : ReqState) : Nat :=
  s.requestCounter.getD 0

/-- Modelled from the spec: requests/src/storage.rs is not in the
repository.  increment_request_id: read, add one, persist, return the new
value, mirroring inventory/src/storage.rs increment_blood_unit_id. -/
def increment_request_id (s : ReqState) : Nat × ReqState :=
  let next_id := get_request_counter s + 1
  (next_id, { s with requestCounter := some next_id })

/-- Modelled from the spec: requests/src/storage.rs is not in the
repository.  set_blood_request persists the request under its id. -/
def set_blood_request (s : ReqState) (r : BloodRequest) : ReqState :=
  { s with requests := fun i => if i = r.id then some r else s.requests i }

/-- Modelled from the spec: requests/src/storage.rs is not in the
repository.  get_blood_request: point lookup by id. -/
def get_blood_request (s : ReqState) (id : Nat) : Option BloodRequest :=
  s.requests id

/-- Modelled from the spec: requests/src/storage.rs is not in the
repository.  Append the request's id to its hospital's bucket. -/
def add_to_hospital_index (s : ReqState) (r : BloodRequest) : ReqState :=
  { s with hospitalIndex := fun h =>
      if h = r.hospital_id then s.hospitalIndex h ++ [r.id] else s.hospitalIndex h }

/-- Modelled from the spec: requests/src/storage.rs is not in the
repository.  Append the request's id to its blood type's bucket. -/
def add_to_blood_type_index (s : ReqState) (r : BloodRequest) : ReqState :=
  { s with bloodTypeIndex := fun bt =>
      if bt = r.blood_type then s.bloodTypeIndex bt ++ [r.id] else s.bloodTypeIndex bt }

/-- Modelled from the spec: requests/src/storage.rs is not in the
repository.  Append the request's id to its status bucket. -/
def add_to_status_index (s : ReqState) (r : BloodRequest) : ReqState :=
  { s with statusIndex := fun st =>
      if st = r.status then s.statusIndex st ++ [r.id] else s.statusIndex st }

/-- Modelled from the spec: requests/src/storage.rs is not in the
repository.  Append the request's id to its urgency bucket. -/
def add_to_urgency_index (s : ReqState) (r : BloodRequest) : ReqState :=
  { s with urgencyIndex := fun u =>
      if u = r.urgency then s.urgencyIndex u ++ [r.id] else s.urgencyIndex u }

/-- Modelled from the spec: requests/src/storage.rs is not in the
repository.  update_status_index on a status change removes the id from the
old status bucket (exact-match-once, preserving the remaining relative
order: List.erase drops the first occurrence) and appends it to the new
status bucket. -/
def update_status_index (s : ReqState) (request_id : Nat)
    (old_status new_status : RequestStatus) : ReqState :=
  let afterRemove : RequestStatus → List Nat := fun st =>
    if st = old_status then (s.statusIndex old_status).erase request_id
    else s.statusIndex st
  { s with statusIndex := fun st =>
      if st = new_status then afterRemove new_status ++ [request_id]
      else afterRemove st }

/-- Modelled from the spec: requests/src/storage.rs is not in the
repository.  get_requests_by_hospital reads the hospital's bucket (empty
when absent). -/
def get_requests_by_hospital (s : ReqState) (hospital : Nat) : List Nat :=
  s.hospitalIndex hospital

/-- Modelled from the spec: requests/src/storage.rs is not in the
repository.  get_requests_by_status reads the status bucket. -/
def get_requests_by_status (s : ReqState) (status : RequestStatus) : List Nat :=
  s.statusIndex status

/-- Modelled from the spec: requests/src/storage.rs is not in the
repository.  get_requests_by_blood_type reads the blood type bucket. -/
def get_requests_by_blood_type (s : ReqState) (bt : BloodType) : List Nat :=
  s.bloodTypeIndex bt

/-- Modelled from the spec: requests/src/storage.rs is not in the
repository.  get_requests_by_urgency reads the urgency bucket. -/
def get_requests_by_urgency (s : ReqState) (u : UrgencyLevel) : List Nat :=
  s.urgencyIndex u

end Storage

/-- Modelled from the spec: requests/src/validation.rs is not in the
repository.  validate_request_creation checks the quantity range
([100, 10000], failing InvalidQuantity), that required_by lies strictly in
the future (failing InvalidRequiredBy) and that the delivery address is
non-empty (failing InvalidDeliveryAddress). -/
def validate_request_creation (now quantity_ml required_by : Nat)
    (delivery_address : String) : Except ContractError Unit :=
  if quantity_ml < 100 || quantity_ml > 10000 then .error .InvalidQuantity
  else if required_by ≤ now then .error .InvalidRequiredBy
  else if delivery_address.isEmpty then .error .InvalidDeliveryAddress
  else .ok ()

/-- Minimum lead time per urgency level: one hour for Critical, four hours
for Urgent, twenty-four hours for Normal. Modelled from the spec (and the
test file's comments); requests/src/{types,validation}.rs are not in the
repository. -/
def min_lead_time : UrgencyLevel → Nat
  | .Critical => 3600
  | .Urgent => 4 * 3600
  | .Normal => 24 * 3600

/-- Maximum lead time shared by all urgency levels: 30 days.  Modelled from
the spec; requests/src/validation.rs is not in the repository. -/
def MAX_LEAD_TIME : Nat := 30 * 86400

/-- Modelled from the spec: requests/src/validation.rs is not in the
repository.  validate_urgency_time_window requires the lead time
(required_by minus now) to be at least the urgency-specific minimum and at
most the shared 30-day maximum, failing InvalidRequiredBy.  The source
keys the window off urgency.priority_weight(); the urgency level is passed
directly here. -/
def validate_urgency_time_window (now required_by : Nat) (urgency : UrgencyLevel) :
    Except ContractError Unit :=
  let lead := required_by - now
  if lead < min_lead_time urgency then .error .InvalidRequiredBy
  else if lead > MAX_LEAD_TIME then .error .InvalidRequiredBy
  else .ok ()

/-- Modelled from the spec: requests/src/validation.rs is not in the
repository.  validate_not_expired fails Expired when the current time is
past required_by (test.rs pins the boundary: required_by + 1 fails). -/
def validate_not_expired (now required_by : Nat) : Except ContractError Unit :=
  if now > required_by then .error .Expired else .ok ()

/-- Modelled from the spec: requests/src/types.rs is not in the repository.
BloodRequest::validate re-checks the entity invariants on the constructed
record: quantity range, required_by strictly after the current time,
non-empty delivery address. -/
def BloodRequest.validate (r : BloodRequest) (current_time : Nat) :
    Except ContractError Unit :=
  if r.quantity_ml < 100 || r.quantity_ml > 10000 then .error .InvalidQuantity
  else if r.required_by ≤ current_time then .error .InvalidRequiredBy
  else if r.delivery_address.isEmpty then .error .InvalidDeliveryAddress
  else .ok ()

/-- lib.rs initialize for the requests contract.  (Named init_requests
here.) -/
def init_requests (s : ReqState) (admin : Nat) : Except ContractError ReqState :=
  if Storage.is_initialized s then .error .AlreadyInitialized
  else .ok (Storage.set_admin s admin)

/-- lib.rs authorize_hospital: initialization check, admin auth, then add
to the allow-list. -/
def authorize_hospital (s : ReqState) (hospital : Nat) :
    Except ContractError ReqState :=
  if !(Storage.is_initialized s) then .error .NotInitialized
  else .ok (Storage.authorize_hospital s hospital)

/-- lib.rs revoke_hospital: initialization check, admin auth, then remove
from the allow-list. -/
def revoke_hospital (s : ReqState) (hospital : Nat) :
    Except ContractError ReqState :=
  if !(Storage.is_initialized s) then .error .NotInitialized
  else .ok (Storage.revoke_hospital s hospital)

/-- lib.rs create_request, step for step: initialization check, hospital
authorization, input validation, urgency window validation, id allocation,
entity construction at the ledger time (status Pending, fulfilled_at None,
assigned_units empty, metadata empty), entity validation, persistence, the
four index appends.  Returns the new id with the updated storage. -/
def create_request (s : ReqState) (now hospital_id : Nat) (blood_type : BloodType)
    (quantity_ml : Nat) (urgency : UrgencyLevel) (required_by : Nat)
    (delivery_address : String) : Except ContractError (Nat × ReqState) :=
  if !(Storage.is_initialized s) then .error .NotInitialized
  else if !(Storage.is_authorized_hospital s hospital_id) then
    .error .NotAuthorizedHospital
  else match validate_request_creation now quantity_ml required_by delivery_address with
  | .error e => .error e
  | .ok _ =>
    match validate_urgency_time_window now required_by urgency with
    | .error e => .error e
    | .ok _ =>
      let alloc := Storage.increment_request_id s
      let request : BloodRequest :=
        { id := alloc.1
          hospital_id := hospital_id
          blood_type := blood_type
          quantity_ml := quantity_ml
          urgency := urgency
          status := .Pending
          created_at := now
          required_by := required_by
          fulfilled_at := none
          assigned_units := []
          delivery_address := delivery_address
          metadata := [] }
      match request.validate now with
      | .error e => .error e
      | .ok _ =>
        let s2 := Storage.set_blood_request alloc.2 request
        let s3 := Storage.add_to_hospital_index s2 request
        let s4 := Storage.add_to_blood_type_index s3 request
        let s5 := Storage.add_to_status_index s4 request
        let s6 := Storage.add_to_urgency_index s5 request
        .ok (alloc.1, s6)

/-- lib.rs get_request: point lookup, absence becomes NotFound. -/
def get_request (s : ReqState) (request_id : Nat) :
    Except ContractError BloodRequest :=
  match Storage.get_blood_request s request_id with
  | some r => .ok r
  | none => .error .NotFound

/-- lib.rs approve_request: initialization check, admin auth, load (absence
is NotFound), transition-legality check (InvalidStatusTransition), expiry
check (Expired), then set status Approved, persist and move the id in the
status index. -/
def approve_request (s : ReqState) (now request_id : Nat) :
    Except ContractError ReqState :=
  if !(Storage.is_initialized s) then .error .NotInitialized
  else match Storage.get_blood_request s request_id with
  | none => .error .NotFound
  | some request =>
    if !(request.status.can_transition_to .Approved) then
      .error .InvalidStatusTransition
    else match validate_not_expired now request.required_by with
    | .error e => .error e
    | .ok _ =>
      let old_status := request.status
      let request' := { request with status := RequestStatus.Approved }
      let s1 := Storage.set_blood_request s request'
      let s2 := Storage.update_status_index s1 request_id old_status .Approved
      .ok s2

/-- lib.rs cancel_request: caller auth, initialization check, load (absence
is NotFound), caller must be the owning hospital or the admin
(Unauthorized), can_cancel check (CannotCancelRequest), then set status
Cancelled, persist and move the id in the status index. -/
def cancel_request (s : ReqState) (now request_id caller : Nat) :
    Except ContractError ReqState :=
  if !(Storage.is_initialized s) then .error .NotInitialized
  else match Storage.get_blood_request s request_id with
  | none => .error .NotFound
  | some request =>
    if caller ≠ request.hospital_id ∧ s.admin ≠ some caller then .error .Unauthorized
    else if !(request.status.can_cancel) then .error .CannotCancelRequest
    else
      let old_status := request.status
      let request' := { request with status := RequestStatus.Cancelled }
      let s1 := Storage.set_blood_request s request'
      let s2 := Storage.update_status_index s1 request_id old_status .Cancelled
      .ok s2

/-- lib.rs get_hospital_requests: the hospital's bucket, with no
initialization check and no error case (the return type is a plain
vector). -/
def get_hospital_requests (s : ReqState) (hospital : Nat) : List Nat :=
  Storage.get_requests_by_hospital s hospital

/-- lib.rs get_requests_by_status. -/
def get_requests_by_status (s : ReqState) (status : RequestStatus) : List Nat :=
  Storage.get_requests_by_status s status

/-- lib.rs get_requests_by_blood_type. -/
def get_requests_by_blood_type (s : ReqState) (bt : BloodType) : List Nat :=
  Storage.get_requests_by_blood_type s bt

/-- lib.rs get_requests_by_urgency. -/
def get_requests_by_urgency (s : ReqState) (u : UrgencyLevel) : List Nat :=
  Storage.get_requests_by_urgency s u

/-- lib.rs is_hospital_authorized. -/
def is_hospital_authorized (s : ReqState) (hospital : Nat) : Bool :=
  Storage.is_authorized_hospital s hospital

/-- One create_request attempt's inputs. -/
structure CreateAttempt where
  now : Nat
  hospital_id : Nat
  blood_type : BloodType
  quantity_ml : Nat
  urgency : UrgencyLevel
  required_by : Nat
  delivery_address : String

/-- Run one create_request invocation with host rollback on error. -/
def create_step (s : ReqState) (a : CreateAttempt) : Option Nat × ReqState :=
  match create_request s a.now a.hospital_id a.blood_type a.quantity_ml
      a.urgency a.required_by a.delivery_address with
  | .ok (id, s') => (some id, s')
  | .error _ => (none, s)

/-- Run a sequence of create_request attempts; collect the ids the
successful ones returned, in order. -/
def create_run (s : ReqState) : List CreateAttempt → List Nat × ReqState
  | [] => ([], s)
  | a :: rest =>
    let step := create_step s a
    let tail := create_run step.2 rest
    (match step.1 with
     | some id => id :: tail.1
     | none => tail.1, tail.2)

/-- The requests contract's state-changing public operation surface
(lib.rs): initialize, authorize/revoke hospital, create_request,
approve_request, cancel_request.  The query operations do not write. -/
inductive ReqOp where
  | init_op (admin : Nat)
  | auth_op (hospital : Nat)
  | revoke_op (hospital : Nat)
  | create_op (a : CreateAttempt)
  | approve_op (now request_id : Nat)
  | cancel_op (now request_id caller : Nat)

/-- Apply one public requests operation with host rollback on error. -/
def apply_op (s : ReqState) : ReqOp → ReqState
  | .init_op admin =>
    match init_requests s admin with
    | .ok s' => s'
    | .error _ => s
  | .auth_op hospital =>
    match authorize_hospital s hospital with
    | .ok s' => s'
    | .error _ => s
  | .revoke_op hospital =>
    match revoke_hospital s hospital with
    | .ok s' => s'
    | .error _ => s
  | .create_op a => (create_step s a).2
  | .approve_op now id =>
    match approve_request s now id with
    | .ok s' => s'
    | .error _ => s
  | .cancel_op now id caller =>
    match cancel_request s now id caller with
    | .ok s' => s'
    | .error _ => s

/-- Run a sequence of public operations from a state. -/
def run_ops (s : ReqState) (ops : List ReqOp) : ReqState :=
  ops.foldl apply_op s

end Requests

end HealthChain

namespace HealthChain

namespace Requests

/-- Proof-level predicate: each stored request is keyed by its own id
field (set_blood_request persists under r.id, so a record whose id field
disagreed with its key would drift on update). -/
def ids_consistent (s : ReqState) : Prop :=
  ∀ id r, s.requests id = some r → r.id = id

/-- Proof-level predicate: ids beyond the allocated counter hold no
record. -/
def counter_bounds (s : ReqState) : Prop :=
  ∀ id, Storage.get_request_counter s < id → s.requests id = none

/-- Proof-level predicate: every stored request id appears exactly once in
its own status bucket and zero times in every other status bucket, and an
id with no stored request appears in no status bucket. -/
def status_buckets_ok (s : ReqState) : Prop :=
  (∀ id r, s.requests id = some r →
      (s.statusIndex r.status).count id = 1 ∧
      ∀ st, st ≠ r.status → (s.statusIndex st).count id = 0) ∧
  (∀ id, s.requests id = none → ∀ st, (s.statusIndex st).count id = 0)

/-- The request ledger's inductive invariant. -/
def ledger_invariant (s : ReqState) : Prop :=
  counter_bounds s ∧ ids_consistent s ∧ status_buckets_ok s

end Requests

end HealthChain

namespace HealthChain

/-- Concrete inventory state for the witness theorems: freshly initialized
with admin 99. -/
def inv_s0 : Inventory.InvState :=
  Inventory.inv_apply_op Inventory.inv_init_state (.init_op 99)

/-- Concrete inventory state: one unit registered by the admin bank. -/
def inv_s1 : Inventory.InvState :=
  Inventory.inv_apply_op inv_s0
    (.register_op ⟨1000, 99, .APositive, 450, 1000 + 30 * 86400, some 7⟩)

/-- The ledger time used by the request-side witnesses. -/
def wit_time : Nat := 1000000

/-- Concrete requests state: freshly initialized with admin 99. -/
def req_s0 : Requests.ReqState :=
  Requests.apply_op Requests.req_init_state (.init_op 99)

/-- Concrete requests state: hospital 5 authorized. -/
def req_s1 : Requests.ReqState := Requests.apply_op req_s0 (.auth_op 5)

/-- The create_request inputs used by the witnesses. -/
def wit_attempt : Requests.CreateAttempt :=
  ⟨wit_time, 5, .APositive, 450, .Normal, wit_time + 2 * 86400,
    "123 Hospital Street"⟩

/-- Concrete requests state: one pending request (id 1) created. -/
def req_s2 : Requests.ReqState := Requests.apply_op req_s1 (.create_op wit_attempt)

/-- Concrete requests state: request 1 cancelled by its hospital. -/
def req_s4 : Requests.ReqState :=
  Requests.apply_op req_s2 (.cancel_op wit_time 1 5)

/-- The stored form of the witness request while pending. -/
def wit_request : Requests.BloodRequest :=
  ⟨1, 5, .APositive, 450, .Normal, .Pending, wit_time, wit_time + 2 * 86400,
    none, [], "123 Hospital Street", []⟩

/-- The stored form of the witness request after cancellation. -/
def wit_request_cancelled : Requests.BloodRequest :=
  { wit_request with status := .Cancelled }

end HealthChain

namespace HealthChain

namespace Inventory

theorem register_blood_ok_core {s : InvState} {now bank q e : Nat} {bt : BloodType}
    {donor : Option Nat} {id : Nat} {s' : InvState}
    (h : register_blood s now bank bt q e donor = Except.ok (id, s')) :
    id = Storage.get_blood_unit_counter s + 1 ∧
    Storage.get_blood_unit_counter s' = id ∧
    Storage.get_blood_unit s' id =
      some { id := id, blood_type := bt, quantity_ml := q, bank_id := bank,
             donor_id := donor, donation_timestamp := now, expiration_timestamp := e,
             status := .Available, metadata := [] } ∧
    s'.admin = s.admin := by
  unfold register_blood at h
  split at h
  · exact absurd h (by simp)
  split at h
  · exact absurd h (by simp)
  split at h
  · exact absurd h (by simp)
  split at h
  · exact absurd h (by simp)
  dsimp only at h
  split at h
  · exact absurd h (by simp)
  rw [Except.ok.injEq, Prod.mk.injEq] at h
  obtain ⟨hid, hs⟩ := h
  subst hid
  subst hs
  cases donor <;>
    exact ⟨rfl, rfl, by
      simp [Storage.get_blood_unit, Storage.add_to_donor_index, Storage.add_to_status_index,
        Storage.add_to_bank_index, Storage.add_to_blood_type_index, Storage.set_blood_unit,
        Storage.increment_blood_unit_id, Storage.get_blood_unit_counter], rfl⟩

theorem validate_blood_registration_eq_ok_iff (now q e : Nat) :
    validate_blood_registration now q e = Except.ok () ↔
      100 ≤ q ∧ q ≤ 600 ∧ now < e ∧ e - now ≤ MAX_EXPIRATION_DAYS * SECONDS_PER_DAY := by
  unfold validate_blood_registration
  split_ifs with h1 h2 h3 <;> simp_all <;> omega

theorem validate_minimum_shelf_life_eq_ok_iff (now e : Nat) :
    validate_minimum_shelf_life now e = Except.ok () ↔ now + SECONDS_PER_DAY < e := by
  unfold validate_minimum_shelf_life
  split_ifs with h1 <;> simp_all

theorem validate_blood_registration_quantity_error (now q e : Nat)
    (hq : q < 100 ∨ 600 < q) :
    validate_blood_registration now q e = Except.error .InvalidQuantity := by
  unfold validate_blood_registration
  split_ifs with h1 <;> simp_all

theorem validate_blood_registration_expiration_error (now q e : Nat)
    (hq : 100 ≤ q ∧ q ≤ 600)
    (he : ¬(now < e ∧ e - now ≤ MAX_EXPIRATION_DAYS * SECONDS_PER_DAY)) :
    validate_blood_registration now q e = Except.error .InvalidExpiration := by
  unfold validate_blood_registration
  split_ifs with h1 h2 h3
  · exfalso
    simp at h1
    omega
  · rfl
  · rfl
  · exfalso
    apply he
    refine ⟨by omega, ?_⟩
    simp only [MAX_EXPIRATION_DAYS, SECONDS_PER_DAY] at h3 ⊢
    omega

theorem blood_unit_validate_eq_ok_iff (u : BloodUnit) (now : Nat) :
    u.validate now = Except.ok () ↔
      100 ≤ u.quantity_ml ∧ u.quantity_ml ≤ 600 ∧ now < u.expiration_timestamp ∧
        u.expiration_timestamp - now ≤ MAX_EXPIRATION_DAYS * SECONDS_PER_DAY := by
  unfold BloodUnit.validate
  split_ifs with h1 h2 h3 <;> simp_all <;> omega

theorem register_blood_lift_error_one {s : InvState} {bank : Nat}
    (hadmin : s.admin = some bank) (now q e : Nat) (bt : BloodType)
    (donor : Option Nat) {err : ContractError}
    (hv : validate_blood_registration now q e = Except.error err) :
    register_blood s now bank bt q e donor = Except.error err := by
  unfold register_blood
  rw [hv]
  simp [hadmin, Storage.is_authorized_bank]

theorem register_blood_lift_error_two {s : InvState} {bank : Nat}
    (hadmin : s.admin = some bank) (now q e : Nat) (bt : BloodType)
    (donor : Option Nat) {err : ContractError}
    (hv1 : validate_blood_registration now q e = Except.ok ())
    (hv2 : validate_minimum_shelf_life now e = Except.error err) :
    register_blood s now bank bt q e donor = Except.error err := by
  unfold register_blood
  rw [hv1, hv2]
  simp [hadmin, Storage.is_authorized_bank]

theorem register_blood_success {s : InvState} {bank : Nat}
    (hadmin : s.admin = some bank) (now q e : Nat) (bt : BloodType)
    (donor : Option Nat)
    (hv1 : validate_blood_registration now q e = Except.ok ())
    (hv2 : validate_minimum_shelf_life now e = Except.ok ()) :
    ∃ s', register_blood s now bank bt q e donor =
      Except.ok (Storage.get_blood_unit_counter s + 1, s') := by
  have hn : s.admin.isNone = false := by rw [hadmin]; rfl
  have hb : Storage.is_authorized_bank s bank = true := by
    simp [Storage.is_authorized_bank, hadmin]
  have hu : (⟨(Storage.increment_blood_unit_id s).1, bt, q, bank, donor, now, e,
      .Available, []⟩ : BloodUnit).validate now = Except.ok () := by
    rw [blood_unit_validate_eq_ok_iff]
    exact (validate_blood_registration_eq_ok_iff now q e).mp hv1
  unfold register_blood
  rw [hv1, hv2]
  dsimp only
  rw [hn, hb, hu]
  exact ⟨_, rfl⟩

end Inventory

namespace Requests

theorem validate_request_creation_eq_ok_iff (now q rb : Nat) (addr : String) :
    validate_request_creation now q rb addr = Except.ok () ↔
      100 ≤ q ∧ q ≤ 10000 ∧ now < rb ∧ addr.isEmpty = false := by
  unfold validate_request_creation
  split_ifs with h1 h2 h3 <;> simp_all <;> omega

theorem validate_urgency_time_window_eq_ok_iff (now rb : Nat) (u : UrgencyLevel) :
    validate_urgency_time_window now rb u = Except.ok () ↔
      min_lead_time u ≤ rb - now ∧ rb - now ≤ MAX_LEAD_TIME := by
  unfold validate_urgency_time_window
  dsimp only
  split_ifs with h1 h2 <;> simp_all <;> omega

theorem validate_not_expired_eq_ok_iff (now rb : Nat) :
    validate_not_expired now rb = Except.ok () ↔ now ≤ rb := by
  unfold validate_not_expired
  split_ifs with h1 <;> simp_all

theorem blood_request_validate_eq_ok_iff (r : BloodRequest) (now : Nat) :
    r.validate now = Except.ok () ↔
      100 ≤ r.quantity_ml ∧ r.quantity_ml ≤ 10000 ∧ now < r.required_by ∧
        r.delivery_address.isEmpty = false := by
  unfold BloodRequest.validate
  split_ifs with h1 h2 h3 <;> simp_all <;> omega

theorem create_request_ok_core {s : ReqState} {now hosp q rb : Nat} {bt : BloodType}
    {u : UrgencyLevel} {addr : String} {id : Nat} {s' : ReqState}
    (h : create_request s now hosp bt q u rb addr = Except.ok (id, s')) :
    id = Storage.get_request_counter s + 1 ∧
    s' = Storage.add_to_urgency_index (Storage.add_to_status_index
          (Storage.add_to_blood_type_index (Storage.add_to_hospital_index
            (Storage.set_blood_request (Storage.increment_request_id s).2
              ⟨id, hosp, bt, q, u, .Pending, now, rb, none, [], addr, []⟩)
            ⟨id, hosp, bt, q, u, .Pending, now, rb, none, [], addr, []⟩)
          ⟨id, hosp, bt, q, u, .Pending, now, rb, none, [], addr, []⟩)
          ⟨id, hosp, bt, q, u, .Pending, now, rb, none, [], addr, []⟩)
          ⟨id, hosp, bt, q, u, .Pending, now, rb, none, [], addr, []⟩ := by
  unfold create_request at h
  split at h
  · exact absurd h (by simp)
  split at h
  · exact absurd h (by simp)
  split at h
  · exact absurd h (by simp)
  split at h
  · exact absurd h (by simp)
  dsimp only at h
  split at h
  · exact absurd h (by simp)
  rw [Except.ok.injEq, Prod.mk.injEq] at h
  obtain ⟨hid, hs⟩ := h
  subst hid
  subst hs
  exact ⟨rfl, rfl⟩

theorem approve_request_ok_core {s : ReqState} {now id : Nat} {s' : ReqState}
    (h : approve_request s now id = Except.ok s') :
    ∃ r, Storage.get_blood_request s id = some r ∧ r.status = .Pending ∧
      now ≤ r.required_by ∧
      s' = Storage.update_status_index
            (Storage.set_blood_request s { r with status := RequestStatus.Approved })
            id r.status .Approved := by
  unfold approve_request at h
  split at h
  · exact absurd h (by simp)
  split at h
  · exact absurd h (by simp)
  rename_i r hr
  split at h
  · exact absurd h (by simp)
  rename_i htrans
  split at h
  · exact absurd h (by simp)
  rename_i v hv
  rw [Except.ok.injEq] at h
  subst h
  refine ⟨r, hr, ?_, ?_, rfl⟩
  · revert htrans
    cases r.status <;> simp [RequestStatus.can_transition_to]
  · unfold validate_not_expired at hv
    by_cases h1 : now > r.required_by
    · rw [if_pos h1] at hv
      exact absurd hv (by simp)
    · omega

theorem cancel_request_ok_core {s : ReqState} {now id caller : Nat} {s' : ReqState}
    (h : cancel_request s now id caller = Except.ok s') :
    ∃ r, Storage.get_blood_request s id = some r ∧
      (caller = r.hospital_id ∨ s.admin = some caller) ∧
      r.status.can_cancel = true ∧
      s' = Storage.update_status_index
            (Storage.set_blood_request s { r with status := RequestStatus.Cancelled })
            id r.status .Cancelled := by
  unfold cancel_request at h
  split at h
  · exact absurd h (by simp)
  split at h
  · exact absurd h (by simp)
  rename_i r hr
  split at h
  · exact absurd h (by simp)
  rename_i hcaller
  split at h
  · exact absurd h (by simp)
  rename_i hcancel
  rw [Except.ok.injEq] at h
  subst h
  refine ⟨r, hr, ?_, ?_, rfl⟩
  · rcases not_and_or.mp hcaller with hc | hc
    · exact Or.inl (not_not.mp hc)
    · exact Or.inr (not_not.mp hc)
  · simpa using hcancel

theorem create_request_lift_error_one {s : ReqState} {hosp : Nat}
    (hinit : Storage.is_initialized s = true)
    (hauth : Storage.is_authorized_hospital s hosp = true)
    (now q rb : Nat) (bt : BloodType) (u : UrgencyLevel) (addr : String)
    {err : ContractError}
    (hv : validate_request_creation now q rb addr = Except.error err) :
    create_request s now hosp bt q u rb addr = Except.error err := by
  unfold create_request
  rw [hv]
  simp [hinit, hauth]

theorem create_request_lift_error_two {s : ReqState} {hosp : Nat}
    (hinit : Storage.is_initialized s = true)
    (hauth : Storage.is_authorized_hospital s hosp = true)
    (now q rb : Nat) (bt : BloodType) (u : UrgencyLevel) (addr : String)
    {err : ContractError}
    (hv1 : validate_request_creation now q rb addr = Except.ok ())
    (hv2 : validate_urgency_time_window now rb u = Except.error err) :
    create_request s now hosp bt q u rb addr = Except.error err := by
  unfold create_request
  rw [hv1, hv2]
  simp [hinit, hauth]

theorem create_request_success {s : ReqState} {hosp : Nat}
    (hinit : Storage.is_initialized s = true)
    (hauth : Storage.is_authorized_hospital s hosp = true)
    (now q rb : Nat) (bt : BloodType) (u : UrgencyLevel) (addr : String)
    (hv1 : validate_request_creation now q rb addr = Except.ok ())
    (hv2 : validate_urgency_time_window now rb u = Except.ok ()) :
    ∃ s', create_request s now hosp bt q u rb addr =
      Except.ok (Storage.get_request_counter s + 1, s') := by
  have hu : (⟨(Storage.increment_request_id s).1, hosp, bt, q, u, .Pending, now, rb,
      none, [], addr, []⟩ : BloodRequest).validate now = Except.ok () := by
    rw [blood_request_validate_eq_ok_iff]
    have hc := (validate_request_creation_eq_ok_iff now q rb addr).mp hv1
    exact ⟨hc.1, hc.2.1, hc.2.2.1, hc.2.2.2⟩
  unfold create_request
  rw [hv1, hv2]
  dsimp only
  rw [hinit, hauth, hu]
  exact ⟨_, rfl⟩

theorem approve_request_not_pending {s : ReqState} {now id : Nat} {r : BloodRequest}
    (hinit : Storage.is_initialized s = true)
    (hr : Storage.get_blood_request s id = some r)
    (hst : r.status ≠ .Pending) :
    approve_request s now id = Except.error .InvalidStatusTransition := by
  have hcan : r.status.can_transition_to .Approved = false := by
    cases h : r.status <;> simp_all [RequestStatus.can_transition_to]
  unfold approve_request
  rw [hr]
  dsimp only
  simp [hinit, hcan]

theorem approve_request_expired_error {s : ReqState} {now id : Nat} {r : BloodRequest}
    (hinit : Storage.is_initialized s = true)
    (hr : Storage.get_blood_request s id = some r)
    (hst : r.status = .Pending) (hexp : r.required_by < now) :
    approve_request s now id = Except.error .Expired := by
  have hcan : r.status.can_transition_to .Approved = true := by
    rw [hst]
    rfl
  have hv : validate_not_expired now r.required_by = Except.error .Expired := by
    unfold validate_not_expired
    rw [if_pos hexp]
  unfold approve_request
  rw [hr]
  dsimp only
  simp [hinit, hcan, hv]

theorem approve_request_success {s : ReqState} {now id : Nat} {r : BloodRequest}
    (hinit : Storage.is_initialized s = true)
    (hr : Storage.get_blood_request s id = some r)
    (hst : r.status = .Pending) (hexp : now ≤ r.required_by) :
    approve_request s now id =
      Except.ok (Storage.update_status_index
        (Storage.set_blood_request s { r with status := RequestStatus.Approved })
        id r.status .Approved) := by
  have hcan : r.status.can_transition_to .Approved = true := by
    rw [hst]
    rfl
  have hv : validate_not_expired now r.required_by = Except.ok () := by
    unfold validate_not_expired
    rw [if_neg (by omega)]
  unfold approve_request
  rw [hr]
  dsimp only
  simp [hinit, hcan, hv]

theorem cancel_request_not_cancellable {s : ReqState} {now id caller : Nat}
    {r : BloodRequest}
    (hinit : Storage.is_initialized s = true)
    (hr : Storage.get_blood_request s id = some r)
    (hcaller : caller = r.hospital_id ∨ s.admin = some caller)
    (hst : r.status.can_cancel = false) :
    cancel_request s now id caller = Except.error .CannotCancelRequest := by
  have hc : ¬(caller ≠ r.hospital_id ∧ s.admin ≠ some caller) := by
    rcases hcaller with h | h
    · exact fun hh => hh.1 h
    · exact fun hh => hh.2 h
  unfold cancel_request
  rw [hr]
  dsimp only
  simp [hinit, hc, hst]

theorem cancel_request_success {s : ReqState} {now id caller : Nat}
    {r : BloodRequest}
    (hinit : Storage.is_initialized s = true)
    (hr : Storage.get_blood_request s id = some r)
    (hcaller : caller = r.hospital_id ∨ s.admin = some caller)
    (hst : r.status.can_cancel = true) :
    cancel_request s now id caller =
      Except.ok (Storage.update_status_index
        (Storage.set_blood_request s { r with status := RequestStatus.Cancelled })
        id r.status .Cancelled) := by
  have hc : ¬(caller ≠ r.hospital_id ∧ s.admin ≠ some caller) := by
    rcases hcaller with h | h
    · exact fun hh => hh.1 h
    · exact fun hh => hh.2 h
  unfold cancel_request
  rw [hr]
  dsimp only
  simp [hinit, hc, hst]

end Requests

end HealthChain

namespace HealthChain

namespace Inventory

theorem reg_step_cases (s : InvState) (a : RegAttempt) :
    ((reg_step s a).1 = none ∧ (reg_step s a).2 = s) ∨
    (∃ id s', (reg_step s a).1 = some id ∧ (reg_step s a).2 = s' ∧
      register_blood s a.now a.bank_id a.blood_type a.quantity_ml
        a.expiration_timestamp a.donor_id = Except.ok (id, s')) := by
  unfold reg_step
  rcases hreg : register_blood s a.now a.bank_id a.blood_type a.quantity_ml
      a.expiration_timestamp a.donor_id with e | ⟨id, s'⟩
  · exact Or.inl ⟨rfl, rfl⟩
  · exact Or.inr ⟨id, s', rfl, rfl, rfl⟩

theorem reg_run_spec (as : List RegAttempt) : ∀ s : InvState,
    (reg_run s as).1 =
      List.range' (Storage.get_blood_unit_counter s + 1) (reg_run s as).1.length ∧
    Storage.get_blood_unit_counter (reg_run s as).2 =
      Storage.get_blood_unit_counter s + (reg_run s as).1.length := by
  induction as with
  | nil =>
    intro s
    simp [reg_run]
  | cons a rest ih =>
    intro s
    have hrw : reg_run s (a :: rest) =
        ((match (reg_step s a).1 with
          | some id => id :: (reg_run (reg_step s a).2 rest).1
          | none => (reg_run (reg_step s a).2 rest).1), (reg_run (reg_step s a).2 rest).2) := rfl
    rcases reg_step_cases s a with ⟨h1, h2⟩ | ⟨id, s', h1, h2, hreg⟩
    · rw [hrw, h1, h2]
      simpa using ih s
    · obtain ⟨hid, hcnt, _⟩ := register_blood_ok_core hreg
      obtain ⟨ih1, ih2⟩ := ih s'
      rw [hrw, h1, h2]
      dsimp only
      constructor
      · rw [List.length_cons, List.range'_succ, hid]
        conv_lhs => rw [ih1]
        rw [hcnt, hid]
      · rw [List.length_cons, ih2, hcnt, hid]
        omega

end Inventory

namespace Requests

theorem create_step_cases (s : ReqState) (a : CreateAttempt) :
    ((create_step s a).1 = none ∧ (create_step s a).2 = s) ∨
    (∃ id s', (create_step s a).1 = some id ∧ (create_step s a).2 = s' ∧
      create_request s a.now a.hospital_id a.blood_type a.quantity_ml
        a.urgency a.required_by a.delivery_address = Except.ok (id, s')) := by
  unfold create_step
  rcases hreg : create_request s a.now a.hospital_id a.blood_type a.quantity_ml
      a.urgency a.required_by a.delivery_address with e | ⟨id, s'⟩
  · exact Or.inl ⟨rfl, rfl⟩
  · exact Or.inr ⟨id, s', rfl, rfl, rfl⟩

theorem create_ok_projections {s : ReqState} {now hosp q rb : Nat} {bt : BloodType}
    {u : UrgencyLevel} {addr : String} {id : Nat} {s' : ReqState}
    (h : create_request s now hosp bt q u rb addr = Except.ok (id, s')) :
    id = Storage.get_request_counter s + 1 ∧
    Storage.get_request_counter s' = id ∧
    (∀ i, s'.requests i =
      if i = id then some ⟨id, hosp, bt, q, u, .Pending, now, rb, none, [], addr, []⟩
      else s.requests i) ∧
    (∀ st, s'.statusIndex st =
      if st = RequestStatus.Pending then s.statusIndex st ++ [id] else s.statusIndex st) ∧
    (∀ hh, s'.hospitalIndex hh =
      if hh = hosp then s.hospitalIndex hh ++ [id] else s.hospitalIndex hh) ∧
    (∀ b, s'.bloodTypeIndex b =
      if b = bt then s.bloodTypeIndex b ++ [id] else s.bloodTypeIndex b) ∧
    (∀ uu, s'.urgencyIndex uu =
      if uu = u then s.urgencyIndex uu ++ [id] else s.urgencyIndex uu) ∧
    s'.admin = s.admin ∧ s'.hospitals = s.hospitals := by
  obtain ⟨hid, hs⟩ := create_request_ok_core h
  subst hs
  refine ⟨hid, ?_, ?_, ?_, ?_, ?_, ?_, rfl, rfl⟩ <;>
    simp [Storage.add_to_urgency_index, Storage.add_to_status_index,
      Storage.add_to_blood_type_index, Storage.add_to_hospital_index,
      Storage.set_blood_request, Storage.increment_request_id,
      Storage.get_request_counter, hid]

theorem approve_ok_projections {s : ReqState} {now id : Nat} {s' : ReqState}
    (h : approve_request s now id = Except.ok s') :
    ∃ r, Storage.get_blood_request s id = some r ∧ r.status = .Pending ∧
      now ≤ r.required_by ∧
      (∀ i, s'.requests i =
        if i = r.id then some { r with status := RequestStatus.Approved }
        else s.requests i) ∧
      (∀ st, s'.statusIndex st =
        if st = RequestStatus.Approved then s.statusIndex st ++ [id]
        else if st = RequestStatus.Pending then (s.statusIndex st).erase id
        else s.statusIndex st) ∧
      (∀ hh, s'.hospitalIndex hh = s.hospitalIndex hh) ∧
      (∀ b, s'.bloodTypeIndex b = s.bloodTypeIndex b) ∧
      (∀ uu, s'.urgencyIndex uu = s.urgencyIndex uu) ∧
      s'.requestCounter = s.requestCounter ∧
      s'.admin = s.admin ∧ s'.hospitals = s.hospitals := by
  obtain ⟨r, hr, hst, hexp, hs⟩ := approve_request_ok_core h
  subst hs
  refine ⟨r, hr, hst, hexp, ?_, ?_, fun _ => rfl, fun _ => rfl, fun _ => rfl, rfl, rfl, rfl⟩
  · intro i
    simp [Storage.update_status_index, Storage.set_blood_request]
  · intro st
    simp only [Storage.update_status_index, Storage.set_blood_request, hst]
    by_cases h1 : st = RequestStatus.Approved
    · subst h1
      simp
    · rw [if_neg h1, if_neg h1]
      by_cases h2 : st = RequestStatus.Pending
      · subst h2
        simp
      · rw [if_neg h2, if_neg h2]

theorem cancel_ok_projections {s : ReqState} {now id caller : Nat} {s' : ReqState}
    (h : cancel_request s now id caller = Except.ok s') :
    ∃ r, Storage.get_blood_request s id = some r ∧
      (caller = r.hospital_id ∨ s.admin = some caller) ∧
      r.status.can_cancel = true ∧
      (∀ i, s'.requests i =
        if i = r.id then some { r with status := RequestStatus.Cancelled }
        else s.requests i) ∧
      (∀ st, s'.statusIndex st =
        if st = RequestStatus.Cancelled then s.statusIndex st ++ [id]
        else if st = r.status then (s.statusIndex st).erase id
        else s.statusIndex st) ∧
      (∀ hh, s'.hospitalIndex hh = s.hospitalIndex hh) ∧
      (∀ b, s'.bloodTypeIndex b = s.bloodTypeIndex b) ∧
      (∀ uu, s'.urgencyIndex uu = s.urgencyIndex uu) ∧
      s'.requestCounter = s.requestCounter ∧
      s'.admin = s.admin ∧ s'.hospitals = s.hospitals := by
  obtain ⟨r, hr, hcaller, hcc, hs⟩ := cancel_request_ok_core h
  have hnc : r.status ≠ RequestStatus.Cancelled := by
    intro hh
    rw [hh] at hcc
    exact absurd hcc (by simp [RequestStatus.can_cancel])
  subst hs
  refine ⟨r, hr, hcaller, hcc, ?_, ?_, fun _ => rfl, fun _ => rfl, fun _ => rfl, rfl, rfl, rfl⟩
  · intro i
    simp [Storage.update_status_index, Storage.set_blood_request]
  · intro st
    simp only [Storage.update_status_index, Storage.set_blood_request]
    by_cases h1 : st = RequestStatus.Cancelled
    · subst h1
      rw [if_pos rfl, if_pos rfl, if_neg (Ne.symm hnc)]
    · rw [if_neg h1, if_neg h1]
      split_ifs with h2
      · rw [h2]
      · rfl

end Requests

end HealthChain

namespace HealthChain

namespace Requests

theorem create_run_spec (cs : List CreateAttempt) : ∀ s : ReqState,
    (create_run s cs).1 =
      List.range' (Storage.get_request_counter s + 1) (create_run s cs).1.length ∧
    Storage.get_request_counter (create_run s cs).2 =
      Storage.get_request_counter s + (create_run s cs).1.length := by
  induction cs with
  | nil =>
    intro s
    simp [create_run]
  | cons a rest ih =>
    intro s
    have hrw : create_run s (a :: rest) =
        ((match (create_step s a).1 with
          | some id => id :: (create_run (create_step s a).2 rest).1
          | none => (create_run (create_step s a).2 rest).1),
         (create_run (create_step s a).2 rest).2) := rfl
    rcases create_step_cases s a with ⟨h1, h2⟩ | ⟨id, s', h1, h2, hreg⟩
    · rw [hrw, h1, h2]
      simpa using ih s
    · obtain ⟨hid, hcnt, -⟩ := create_ok_projections hreg
      obtain ⟨ih1, ih2⟩ := ih s'
      rw [hrw, h1, h2]
      dsimp only
      constructor
      · rw [List.length_cons, List.range'_succ, hid]
        conv_lhs => rw [ih1]
        rw [hcnt, hid]
      · rw [List.length_cons, ih2, hcnt, hid]
        omega

theorem ledger_invariant_of_eq {s t : ReqState}
    (hreq : ∀ i, t.requests i = s.requests i)
    (hidx : ∀ st, t.statusIndex st = s.statusIndex st)
    (hc : Storage.get_request_counter t = Storage.get_request_counter s)
    (h : ledger_invariant s) : ledger_invariant t := by
  obtain ⟨hbound, hids, hb1, hb2⟩ := h
  refine ⟨?_, ?_, ?_, ?_⟩
  · intro i hi
    rw [hreq, ]
    exact hbound i (by rw [hc] at hi; exact hi)
  · intro i r hir
    rw [hreq] at hir
    exact hids i r hir
  · intro i r hir
    rw [hreq] at hir
    obtain ⟨h1, h2⟩ := hb1 i r hir
    exact ⟨by rw [hidx]; exact h1, fun st hst => by rw [hidx]; exact h2 st hst⟩
  · intro i hir st
    rw [hreq] at hir
    rw [hidx]
    exact hb2 i hir st

theorem ledger_invariant_initial : ledger_invariant req_init_state := by
  refine ⟨fun i _ => rfl, fun i r h => by simp [req_init_state] at h, ?_, ?_⟩
  · intro i r h
    simp [req_init_state] at h
  · intro i _ st
    simp [req_init_state]

theorem count_singleton_ne {a b : Nat} (h : a ≠ b) : ([b] : List Nat).count a = 0 := by
  simp [List.count_singleton']
  omega

theorem ledger_invariant_create_state {s : ReqState} {id : Nat} {req : BloodRequest}
    (hid : id = Storage.get_request_counter s + 1) (hrid : req.id = id)
    (hst : req.status = RequestStatus.Pending)
    {t : ReqState}
    (hreq : ∀ i, t.requests i = if i = id then some req else s.requests i)
    (hidx : ∀ st, t.statusIndex st =
      if st = RequestStatus.Pending then s.statusIndex st ++ [id] else s.statusIndex st)
    (hc : Storage.get_request_counter t = id)
    (h : ledger_invariant s) : ledger_invariant t := by
  obtain ⟨hbound, hids, hb1, hb2⟩ := h
  have hfresh : s.requests id = none := hbound id (by omega)
  have hfresh0 : ∀ st, (s.statusIndex st).count id = 0 := hb2 id hfresh
  refine ⟨?_, ?_, ?_, ?_⟩
  · intro j hj
    rw [hc] at hj
    rw [hreq, if_neg (by omega)]
    exact hbound j (by omega)
  · intro i r hir
    rw [hreq] at hir
    by_cases hii : i = id
    · subst hii
      rw [if_pos rfl] at hir
      cases hir
      rw [hrid]
    · rw [if_neg hii] at hir
      exact hids i r hir
  · intro i r hir
    rw [hreq] at hir
    by_cases hii : i = id
    · subst hii
      rw [if_pos rfl] at hir
      cases hir
      constructor
      · rw [hidx, hst, if_pos rfl, List.count_append, hfresh0]
        simp
      · intro st hstne
        rw [hst] at hstne
        rw [hidx, if_neg hstne]
        exact hfresh0 st
    · rw [if_neg hii] at hir
      obtain ⟨h1, h2⟩ := hb1 i r hir
      constructor
      · rw [hidx]
        by_cases hrs : r.status = RequestStatus.Pending
        · rw [if_pos hrs, List.count_append, count_singleton_ne hii, h1]
        · rw [if_neg hrs]
          exact h1
      · intro st hstne
        rw [hidx]
        by_cases hsp : st = RequestStatus.Pending
        · rw [if_pos hsp, List.count_append, count_singleton_ne hii, h2 st hstne]
        · rw [if_neg hsp]
          exact h2 st hstne
  · intro i hir st
    rw [hreq] at hir
    by_cases hii : i = id
    · subst hii
      rw [if_pos rfl] at hir
      exact absurd hir (by simp)
    · rw [if_neg hii] at hir
      rw [hidx]
      by_cases hsp : st = RequestStatus.Pending
      · rw [if_pos hsp, List.count_append, count_singleton_ne hii, hb2 i hir st]
      · rw [if_neg hsp]
        exact hb2 i hir st

theorem ledger_invariant_move_state {s : ReqState} {id : Nat} {r r2 : BloodRequest}
    {new_st : RequestStatus} {t : ReqState}
    (hr : s.requests id = some r) (hne : r.status ≠ new_st)
    (hreq : ∀ i, t.requests i = if i = id then some r2
      else s.requests i)
    (hr2id : r2.id = id) (hr2st : r2.status = new_st)
    (hidx : ∀ st, t.statusIndex st =
      if st = new_st then s.statusIndex st ++ [id]
      else if st = r.status then (s.statusIndex st).erase id
      else s.statusIndex st)
    (hc : Storage.get_request_counter t = Storage.get_request_counter s)
    (h : ledger_invariant s) : ledger_invariant t := by
  obtain ⟨hbound, hids, hb1, hb2⟩ := h
  obtain ⟨hcnt1, hcnt0⟩ := hb1 id r hr
  refine ⟨?_, ?_, ?_, ?_⟩
  · intro j hj
    rw [hc] at hj
    have hjid : j ≠ id := by
      intro hh
      subst hh
      rw [hbound j hj] at hr
      exact absurd hr (by simp)
    rw [hreq, if_neg hjid]
    exact hbound j hj
  · intro i r3 hir
    rw [hreq] at hir
    by_cases hii : i = id
    · subst hii
      rw [if_pos rfl] at hir
      cases hir
      exact hr2id
    · rw [if_neg hii] at hir
      exact hids i r3 hir
  · intro i r3 hir
    rw [hreq] at hir
    by_cases hii : i = id
    · subst hii
      rw [if_pos rfl] at hir
      cases hir
      constructor
      · rw [hr2st]
        rw [hidx, if_pos rfl, List.count_append, hcnt0 new_st (Ne.symm hne)]
        simp
      · intro st hstne
        rw [hr2st] at hstne
        rw [hidx, if_neg hstne]
        by_cases hsr : st = r.status
        · rw [if_pos hsr, hsr, List.count_erase_self, hcnt1]
        · rw [if_neg hsr]
          exact hcnt0 st hsr
    · rw [if_neg hii] at hir
      obtain ⟨h1, h2⟩ := hb1 i r3 hir
      constructor
      · rw [hidx]
        by_cases h3 : r3.status = new_st
        · rw [if_pos h3, List.count_append, count_singleton_ne hii, h1]
        · rw [if_neg h3]
          by_cases h4 : r3.status = r.status
          · rw [if_pos h4, h4, List.count_erase_of_ne hii, ← h4, h1]
          · rw [if_neg h4]
            exact h1
      · intro st hstne
        rw [hidx]
        by_cases h3 : st = new_st
        · rw [if_pos h3, List.count_append, count_singleton_ne hii, h2 st hstne]
        · rw [if_neg h3]
          by_cases h4 : st = r.status
          · rw [if_pos h4, h4, List.count_erase_of_ne hii, ← h4, h2 st hstne]
          · rw [if_neg h4]
            exact h2 st hstne
  · intro i hir st
    rw [hreq] at hir
    by_cases hii : i = id
    · subst hii
      rw [if_pos rfl] at hir
      exact absurd hir (by simp)
    · rw [if_neg hii] at hir
      rw [hidx]
      by_cases h3 : st = new_st
      · rw [if_pos h3, List.count_append, count_singleton_ne hii, hb2 i hir st]
      · rw [if_neg h3]
        by_cases h4 : st = r.status
        · rw [if_pos h4, h4, List.count_erase_of_ne hii, ← h4, hb2 i hir st]
        · rw [if_neg h4]
          exact hb2 i hir st

theorem ledger_invariant_apply (s : ReqState) (op : ReqOp)
    (h : ledger_invariant s) : ledger_invariant (apply_op s op) := by
  cases op with
  | init_op admin =>
    show ledger_invariant (match init_requests s admin with
      | .ok s' => s' | .error _ => s)
    unfold init_requests
    split_ifs
    · exact h
    · exact ledger_invariant_of_eq (fun _ => rfl) (fun _ => rfl) rfl h
  | auth_op hospital =>
    show ledger_invariant (match authorize_hospital s hospital with
      | .ok s' => s' | .error _ => s)
    unfold authorize_hospital
    split_ifs
    · exact h
    · exact ledger_invariant_of_eq (fun _ => rfl) (fun _ => rfl) rfl h
  | revoke_op hospital =>
    show ledger_invariant (match revoke_hospital s hospital with
      | .ok s' => s' | .error _ => s)
    unfold revoke_hospital
    split_ifs
    · exact h
    · exact ledger_invariant_of_eq (fun _ => rfl) (fun _ => rfl) rfl h
  | create_op a =>
    show ledger_invariant (create_step s a).2
    rcases create_step_cases s a with ⟨-, h2⟩ | ⟨id, s', -, h2, hreg⟩
    · rw [h2]
      exact h
    · rw [h2]
      obtain ⟨hid, hcnt, hreqs, hstat, -, -, -, -, -⟩ := create_ok_projections hreg
      exact ledger_invariant_create_state hid rfl rfl hreqs hstat
        (by rw [hcnt]) h
  | approve_op now id =>
    show ledger_invariant (match approve_request s now id with
      | .ok s' => s' | .error _ => s)
    rcases happ : approve_request s now id with e | s'
    · exact h
    · show ledger_invariant s'
      obtain ⟨r, hr, hst, -, hreqs, hstat, -, -, -, hcnt, -, -⟩ :=
        approve_ok_projections happ
      have hrid : r.id = id := h.2.1 id r hr
      rw [hrid] at hreqs
      have hne : r.status ≠ RequestStatus.Approved := by
        rw [hst]
        simp
      refine ledger_invariant_move_state hr hne hreqs rfl rfl ?_ ?_ h
      · intro st
        rw [hstat st, hst]
      · simp [Storage.get_request_counter, hcnt]
  | cancel_op now id caller =>
    show ledger_invariant (match cancel_request s now id caller with
      | .ok s' => s' | .error _ => s)
    rcases hcan : cancel_request s now id caller with e | s'
    · exact h
    · show ledger_invariant s'
      obtain ⟨r, hr, -, hcc, hreqs, hstat, -, -, -, hcnt, -, -⟩ :=
        cancel_ok_projections hcan
      have hrid : r.id = id := h.2.1 id r hr
      rw [hrid] at hreqs
      have hne : r.status ≠ RequestStatus.Cancelled := by
        intro hh
        rw [hh] at hcc
        exact absurd hcc (by simp [RequestStatus.can_cancel])
      exact ledger_invariant_move_state hr hne hreqs rfl rfl hstat
        (by simp [Storage.get_request_counter, hcnt]) h

theorem ledger_invariant_run (ops : List ReqOp) :
    ledger_invariant (run_ops req_init_state ops) := by
  have main : ∀ (ops : List ReqOp) (s : ReqState), ledger_invariant s →
      ledger_invariant (run_ops s ops) := by
    intro ops
    induction ops with
    | nil => intro s h; exact h
    | cons op rest ih =>
      intro s h
      exact ih (apply_op s op) (ledger_invariant_apply s op h)
  exact main ops req_init_state ledger_invariant_initial

end Requests

end HealthChain

namespace HealthChain

namespace Inventory

theorem validate_blood_registration_error_kinds {now q e : Nat} {err : ContractError}
    (h : validate_blood_registration now q e = Except.error err) :
    err = .InvalidQuantity ∨ err = .InvalidExpiration := by
  unfold validate_blood_registration at h
  split_ifs at h <;> simp_all

theorem validate_minimum_shelf_life_error_kinds {now e : Nat} {err : ContractError}
    (h : validate_minimum_shelf_life now e = Except.error err) :
    err = .InvalidExpiration := by
  unfold validate_minimum_shelf_life at h
  split_ifs at h <;> simp_all

theorem BloodUnit.validate_error_kinds {u : BloodUnit} {now : Nat} {err : ContractError}
    (h : u.validate now = Except.error err) :
    err = .InvalidQuantity ∨ err = .InvalidExpiration := by
  unfold BloodUnit.validate at h
  split_ifs at h <;> simp_all

theorem validate_minimum_shelf_life_error (now e : Nat)
    (he : e ≤ now + SECONDS_PER_DAY) :
    validate_minimum_shelf_life now e = Except.error .InvalidExpiration := by
  unfold validate_minimum_shelf_life
  rw [if_pos he]

theorem register_blood_admin_error_kinds {s : InvState} {bank : Nat}
    (hadmin : s.admin = some bank) {now q e : Nat} {bt : BloodType}
    {donor : Option Nat} {err : ContractError}
    (h : register_blood s now bank bt q e donor = Except.error err) :
    err = .InvalidQuantity ∨ err = .InvalidExpiration := by
  have hb : Storage.is_authorized_bank s bank = true := by
    simp [Storage.is_authorized_bank, hadmin]
  unfold register_blood at h
  split at h
  · rename_i hcond
    rw [hadmin] at hcond
    exact absurd hcond (by simp)
  split at h
  · rename_i hcond
    rw [hb] at hcond
    exact absurd hcond (by simp)
  split at h
  · rename_i e1 he1
    rw [Except.error.injEq] at h
    subst h
    exact validate_blood_registration_error_kinds he1
  split at h
  · rename_i e1 he1
    rw [Except.error.injEq] at h
    subst h
    exact Or.inr (validate_minimum_shelf_life_error_kinds he1)
  dsimp only at h
  split at h
  · rename_i e1 he1
    rw [Except.error.injEq] at h
    subst h
    exact BloodUnit.validate_error_kinds he1
  · exact absurd h (by simp)

end Inventory

namespace Requests

theorem validate_request_creation_quantity_error (now q rb : Nat) (addr : String)
    (hq : q < 100 ∨ 10000 < q) :
    validate_request_creation now q rb addr = Except.error .InvalidQuantity := by
  unfold validate_request_creation
  split_ifs with h1 <;> simp_all

theorem validate_request_creation_required_by_error (now q rb : Nat) (addr : String)
    (hq : 100 ≤ q ∧ q ≤ 10000) (hrb : rb ≤ now) :
    validate_request_creation now q rb addr = Except.error .InvalidRequiredBy := by
  unfold validate_request_creation
  split_ifs with h1 h2 <;> simp_all <;> omega

theorem validate_urgency_time_window_error (now rb : Nat) (u : UrgencyLevel)
    (hw : ¬(min_lead_time u ≤ rb - now ∧ rb - now ≤ MAX_LEAD_TIME)) :
    validate_urgency_time_window now rb u = Except.error .InvalidRequiredBy := by
  unfold validate_urgency_time_window
  dsimp only
  split_ifs with h1 h2
  · rfl
  · rfl
  · exact absurd ⟨by omega, by omega⟩ hw

end Requests

end HealthChain

namespace HealthChain

/-- C1: For each domain (blood units, blood requests), the successful
creations of any attempt sequence receive the consecutive ids 1, 2, ...
(the Nth success returns N) when started from a state whose counter reads
0, whatever failed attempts are interleaved; and a failed attempt leaves
the whole state — in particular the persisted ID counter — unchanged
(the host rolls an erroring invocation back, and every error return in
register_blood / create_request happens before the counter write). -/
theorem c1_sequential_ids :
    (∀ (s : Inventory.InvState) (as : List Inventory.RegAttempt),
        Inventory.Storage.get_blood_unit_counter s = 0 →
        (Inventory.reg_run s as).1 =
          List.range' 1 (Inventory.reg_run s as).1.length) ∧
    (∀ (s : Requests.ReqState) (cs : List Requests.CreateAttempt),
        Requests.Storage.get_request_counter s = 0 →
        (Requests.create_run s cs).1 =
          List.range' 1 (Requests.create_run s cs).1.length) ∧
    (∀ (s : Inventory.InvState) (a : Inventory.RegAttempt),
        (Inventory.reg_step s a).1 = none →
        (Inventory.reg_step s a).2 = s) ∧
    (∀ (s : Requests.ReqState) (a : Requests.CreateAttempt),
        (Requests.create_step s a).1 = none →
        (Requests.create_step s a).2 = s) := by
  refine ⟨?_, ?_, ?_, ?_⟩
  · intro s as h0
    have h := (Inventory.reg_run_spec as s).1
    rw [h0] at h
    simpa using h
  · intro s cs h0
    have h := (Requests.create_run_spec cs s).1
    rw [h0] at h
    simpa using h
  · intro s a h
    rcases Inventory.reg_step_cases s a with ⟨-, h2⟩ | ⟨id, s', h1, -, -⟩
    · exact h2
    · rw [h1] at h
      exact absurd h (by simp)
  · intro s a h
    rcases Requests.create_step_cases s a with ⟨-, h2⟩ | ⟨id, s', h1, -, -⟩
    · exact h2
    · rw [h1] at h
      exact absurd h (by simp)

/-- C3: For a stored request in a terminal status (Completed, Cancelled or
Expired), approve_request fails with InvalidStatusTransition and
cancel_request (by an authorized caller) fails with CannotCancelRequest;
cancel_request by an authorized caller succeeds exactly when the status is
Pending or Approved; and a failing approve or cancel leaves the contract
state — in particular the stored request — unchanged. -/
theorem c3_terminal_statuses (s : Requests.ReqState) (now id caller : Nat)
    (r : Requests.BloodRequest)
    (hinit : Requests.Storage.is_initialized s = true)
    (hr : Requests.Storage.get_blood_request s id = some r)
    (hauth : caller = r.hospital_id ∨ s.admin = some caller) :
    (r.status = .Completed ∨ r.status = .Cancelled ∨ r.status = .Expired →
      Requests.approve_request s now id = Except.error .InvalidStatusTransition ∧
      Requests.cancel_request s now id caller = Except.error .CannotCancelRequest) ∧
    ((∃ s', Requests.cancel_request s now id caller = Except.ok s') ↔
      (r.status = .Pending ∨ r.status = .Approved)) ∧
    (∀ e, Requests.approve_request s now id = Except.error e →
      Requests.apply_op s (.approve_op now id) = s) ∧
    (∀ e, Requests.cancel_request s now id caller = Except.error e →
      Requests.apply_op s (.cancel_op now id caller) = s) := by
  refine ⟨?_, ?_, ?_, ?_⟩
  · intro hterm
    constructor
    · refine Requests.approve_request_not_pending hinit hr ?_
      rcases hterm with h | h | h <;> rw [h] <;> simp
    · refine Requests.cancel_request_not_cancellable hinit hr hauth ?_
      rcases hterm with h | h | h <;> rw [h] <;> rfl
  · constructor
    · rintro ⟨s', hs'⟩
      obtain ⟨r2, hr2, -, hcc, -⟩ := Requests.cancel_request_ok_core hs'
      rw [hr] at hr2
      cases hr2
      revert hcc
      cases r.status <;> simp [Requests.RequestStatus.can_cancel]
    · intro hst
      refine ⟨_, Requests.cancel_request_success hinit hr hauth ?_⟩
      rcases hst with h | h <;> rw [h] <;> rfl
  · intro e he
    show (match Requests.approve_request s now id with
      | .ok s' => s' | .error _ => s) = s
    rw [he]
  · intro e he
    show (match Requests.cancel_request s now id caller with
      | .ok s' => s' | .error _ => s) = s
    rw [he]

/-- C4: A Pending request whose required_by deadline lies strictly in the
past fails approve_request with Expired (not InvalidStatusTransition) and
the state is left unchanged (the status stays Pending), while
cancel_request on the same request by an authorized caller succeeds —
cancellation never checks the deadline. -/
theorem c4_expired_approval (s : Requests.ReqState) (now id caller : Nat)
    (r : Requests.BloodRequest)
    (hinit : Requests.Storage.is_initialized s = true)
    (hr : Requests.Storage.get_blood_request s id = some r)
    (hst : r.status = .Pending)
    (hpast : r.required_by < now)
    (hauth : caller = r.hospital_id ∨ s.admin = some caller) :
    Requests.approve_request s now id = Except.error .Expired ∧
    Requests.apply_op s (.approve_op now id) = s ∧
    (∃ s', Requests.cancel_request s now id caller = Except.ok s') := by
  have happ := Requests.approve_request_expired_error hinit hr hst hpast
  refine ⟨happ, ?_, ?_⟩
  · show (match Requests.approve_request s now id with
      | .ok s' => s' | .error _ => s) = s
    rw [happ]
  · refine ⟨_, Requests.cancel_request_success hinit hr hauth ?_⟩
    rw [hst]
    rfl

/-- C5: Immediately after a successful creation, get returns the entity
field for field as supplied or derived at creation: for a blood unit the
supplied blood type, quantity, bank, donor and expiration, donation time
equal to the ledger time, status Available and the returned id; for a
request the supplied fields with status Pending, created_at the ledger
time, no fulfilled_at, empty assigned_units and the returned id. -/
theorem c5_round_trip :
    (∀ (s : Inventory.InvState) (now bank q e : Nat) (bt : BloodType)
        (donor : Option Nat) (id : Nat) (s' : Inventory.InvState),
        Inventory.register_blood s now bank bt q e donor = Except.ok (id, s') →
        Inventory.get_blood_unit s' id =
          Except.ok ⟨id, bt, q, bank, donor, now, e, .Available, []⟩) ∧
    (∀ (s : Requests.ReqState) (now hosp q rb : Nat) (bt : BloodType)
        (u : Requests.UrgencyLevel) (addr : String) (id : Nat) (s' : Requests.ReqState),
        Requests.create_request s now hosp bt q u rb addr = Except.ok (id, s') →
        Requests.get_request s' id =
          Except.ok ⟨id, hosp, bt, q, u, .Pending, now, rb, none, [], addr, []⟩) := by
  constructor
  · intro s now bank q e bt donor id s' h
    obtain ⟨-, -, hget, -⟩ := Inventory.register_blood_ok_core h
    unfold Inventory.get_blood_unit
    rw [hget]
  · intro s now hosp q rb bt u addr id s' h
    obtain ⟨-, -, hreqs, -⟩ := Requests.create_ok_projections h
    unfold Requests.get_request
    unfold Requests.Storage.get_blood_request
    rw [hreqs id, if_pos rfl]

end HealthChain

namespace HealthChain

/-- C2: In every state of the request ledger reachable through the public
operations, each stored request id appears exactly once in the status
bucket of its own status and in no other status bucket (and an unused id
appears in none); a successful create_request appends the new id to the
Pending bucket and to the hospital, blood-type and urgency buckets and
touches no other status bucket; a successful approve_request removes the
id from the Pending bucket (first exact match, keeping the remaining
relative order — List.erase) and appends it to the Approved bucket, and a
successful cancel_request does the same from the request's old status
bucket into the Cancelled bucket; approve and cancel never modify the
hospital, blood-type or urgency buckets. -/
theorem c2_status_index_integrity :
    (∀ ops : List Requests.ReqOp,
        Requests.status_buckets_ok (Requests.run_ops Requests.req_init_state ops)) ∧
    (∀ (s : Requests.ReqState) (now hosp q rb : Nat) (bt : BloodType)
        (u : Requests.UrgencyLevel) (addr : String) (id : Nat) (s' : Requests.ReqState),
        Requests.create_request s now hosp bt q u rb addr = Except.ok (id, s') →
        (∀ st, s'.statusIndex st =
          if st = .Pending then s.statusIndex st ++ [id] else s.statusIndex st) ∧
        (∀ hh, s'.hospitalIndex hh =
          if hh = hosp then s.hospitalIndex hh ++ [id] else s.hospitalIndex hh) ∧
        (∀ b, s'.bloodTypeIndex b =
          if b = bt then s.bloodTypeIndex b ++ [id] else s.bloodTypeIndex b) ∧
        (∀ uu, s'.urgencyIndex uu =
          if uu = u then s.urgencyIndex uu ++ [id] else s.urgencyIndex uu)) ∧
    (∀ (s : Requests.ReqState) (now id : Nat) (s' : Requests.ReqState),
        Requests.approve_request s now id = Except.ok s' →
        (∀ st, s'.statusIndex st =
          if st = .Approved then s.statusIndex st ++ [id]
          else if st = .Pending then (s.statusIndex st).erase id
          else s.statusIndex st) ∧
        (∀ hh, s'.hospitalIndex hh = s.hospitalIndex hh) ∧
        (∀ b, s'.bloodTypeIndex b = s.bloodTypeIndex b) ∧
        (∀ uu, s'.urgencyIndex uu = s.urgencyIndex uu)) ∧
    (∀ (s : Requests.ReqState) (now id caller : Nat) (s' : Requests.ReqState),
        Requests.cancel_request s now id caller = Except.ok s' →
        ∃ r, Requests.Storage.get_blood_request s id = some r ∧
          (∀ st, s'.statusIndex st =
            if st = .Cancelled then s.statusIndex st ++ [id]
            else if st = r.status then (s.statusIndex st).erase id
            else s.statusIndex st) ∧
          (∀ hh, s'.hospitalIndex hh = s.hospitalIndex hh) ∧
          (∀ b, s'.bloodTypeIndex b = s.bloodTypeIndex b) ∧
          (∀ uu, s'.urgencyIndex uu = s.urgencyIndex uu)) := by
  refine ⟨?_, ?_, ?_, ?_⟩
  · intro ops
    exact (Requests.ledger_invariant_run ops).2.2
  · intro s now hosp q rb bt u addr id s' h
    obtain ⟨-, -, -, hstat, hhosp, hbt, hurg, -, -⟩ := Requests.create_ok_projections h
    exact ⟨hstat, hhosp, hbt, hurg⟩
  · intro s now id s' h
    obtain ⟨r, -, -, -, -, hstat, hhosp, hbt, hurg, -, -, -⟩ :=
      Requests.approve_ok_projections h
    exact ⟨hstat, hhosp, hbt, hurg⟩
  · intro s now id caller s' h
    obtain ⟨r, hr, -, -, -, hstat, hhosp, hbt, hurg, -, -, -⟩ :=
      Requests.cancel_ok_projections h
    exact ⟨r, hr, hstat, hhosp, hbt, hurg⟩

/-- C6: A creation quantity strictly below 100 or strictly above the
domain ceiling (600 for register_blood, 10000 for create_request) fails
with InvalidQuantity and stores nothing (the state is unchanged); at the
boundary values 100 and the ceiling the quantity check passes and, when
every other input is valid, creation succeeds. -/
theorem c6_quantity_bounds :
    (∀ (s : Inventory.InvState) (now bank q e : Nat) (bt : BloodType)
        (donor : Option Nat), s.admin = some bank →
      ((q < 100 ∨ 600 < q) →
        Inventory.register_blood s now bank bt q e donor =
          Except.error .InvalidQuantity ∧
        Inventory.reg_step s ⟨now, bank, bt, q, e, donor⟩ = (none, s)) ∧
      ((q = 100 ∨ q = 600) →
        now < e ∧ e - now ≤ Inventory.MAX_EXPIRATION_DAYS * Inventory.SECONDS_PER_DAY ∧
          now + Inventory.SECONDS_PER_DAY < e →
        ∃ s', Inventory.register_blood s now bank bt q e donor =
          Except.ok (Inventory.Storage.get_blood_unit_counter s + 1, s'))) ∧
    (∀ (s : Requests.ReqState) (now hosp q rb : Nat) (bt : BloodType)
        (u : Requests.UrgencyLevel) (addr : String),
        Requests.Storage.is_initialized s = true →
        Requests.Storage.is_authorized_hospital s hosp = true →
      ((q < 100 ∨ 10000 < q) →
        Requests.create_request s now hosp bt q u rb addr =
          Except.error .InvalidQuantity ∧
        Requests.create_step s ⟨now, hosp, bt, q, u, rb, addr⟩ = (none, s)) ∧
      ((q = 100 ∨ q = 10000) →
        addr.isEmpty = false →
        now < rb ∧ Requests.min_lead_time u ≤ rb - now ∧
          rb - now ≤ Requests.MAX_LEAD_TIME →
        ∃ s', Requests.create_request s now hosp bt q u rb addr =
          Except.ok (Requests.Storage.get_request_counter s + 1, s'))) := by
  constructor
  · intro s now bank q e bt donor hadmin
    constructor
    · intro hq
      have herr := Inventory.register_blood_lift_error_one hadmin now q e bt donor
        (Inventory.validate_blood_registration_quantity_error now q e hq)
      refine ⟨herr, ?_⟩
      unfold Inventory.reg_step
      rw [herr]
    · intro hq he
      refine Inventory.register_blood_success hadmin now q e bt donor ?_ ?_
      · rw [Inventory.validate_blood_registration_eq_ok_iff]
        exact ⟨by omega, by omega, he.1, he.2.1⟩
      · rw [Inventory.validate_minimum_shelf_life_eq_ok_iff]
        exact he.2.2
  · intro s now hosp q rb bt u addr hinit hauth
    constructor
    · intro hq
      have herr := Requests.create_request_lift_error_one hinit hauth now q rb bt u addr
        (Requests.validate_request_creation_quantity_error now q rb addr hq)
      refine ⟨herr, ?_⟩
      unfold Requests.create_step
      rw [herr]
    · intro hq haddr hw
      refine Requests.create_request_success hinit hauth now q rb bt u addr ?_ ?_
      · rw [Requests.validate_request_creation_eq_ok_iff]
        exact ⟨by omega, by omega, hw.1, haddr⟩
      · rw [Requests.validate_urgency_time_window_eq_ok_iff]
        exact ⟨hw.2.1, hw.2.2⟩

/-- C7: With the other inputs valid, create_request at ledger time now
succeeds exactly when required_by is strictly in the future and the lead
time (required_by - now) is at least the urgency-specific minimum — 3600 s
(1 h) for Critical, 14400 s (4 h) for Urgent, 86400 s (24 h) for Normal —
and at most the shared 30-day maximum; any violation fails with
InvalidRequiredBy and stores nothing (the state is unchanged). -/
theorem c7_lead_time_window (s : Requests.ReqState) (now hosp q rb : Nat)
    (bt : BloodType) (u : Requests.UrgencyLevel) (addr : String)
    (hinit : Requests.Storage.is_initialized s = true)
    (hauth : Requests.Storage.is_authorized_hospital s hosp = true)
    (hq : 100 ≤ q ∧ q ≤ 10000) (haddr : addr.isEmpty = false) :
    ((∃ id s', Requests.create_request s now hosp bt q u rb addr =
        Except.ok (id, s')) ↔
      (now < rb ∧ Requests.min_lead_time u ≤ rb - now ∧
        rb - now ≤ Requests.MAX_LEAD_TIME)) ∧
    (¬(now < rb ∧ Requests.min_lead_time u ≤ rb - now ∧
        rb - now ≤ Requests.MAX_LEAD_TIME) →
      Requests.create_request s now hosp bt q u rb addr =
        Except.error .InvalidRequiredBy ∧
      Requests.create_step s ⟨now, hosp, bt, q, u, rb, addr⟩ = (none, s)) ∧
    Requests.min_lead_time .Critical = 3600 ∧
    Requests.min_lead_time .Urgent = 4 * 3600 ∧
    Requests.min_lead_time .Normal = 24 * 3600 ∧
    Requests.MAX_LEAD_TIME = 30 * 86400 := by
  have herr : ¬(now < rb ∧ Requests.min_lead_time u ≤ rb - now ∧
      rb - now ≤ Requests.MAX_LEAD_TIME) →
      Requests.create_request s now hosp bt q u rb addr =
        Except.error .InvalidRequiredBy := by
    intro hviol
    by_cases hrb : rb ≤ now
    · exact Requests.create_request_lift_error_one hinit hauth now q rb bt u addr
        (Requests.validate_request_creation_required_by_error now q rb addr hq hrb)
    · have hv1 : Requests.validate_request_creation now q rb addr = Except.ok () := by
        rw [Requests.validate_request_creation_eq_ok_iff]
        exact ⟨hq.1, hq.2, by omega, haddr⟩
      refine Requests.create_request_lift_error_two hinit hauth now q rb bt u addr hv1
        (Requests.validate_urgency_time_window_error now rb u ?_)
      intro hw
      exact hviol ⟨by omega, hw.1, hw.2⟩
  refine ⟨⟨?_, ?_⟩, ?_, rfl, rfl, rfl, rfl⟩
  · rintro ⟨id, s', hok⟩
    by_contra hviol
    rw [herr hviol] at hok
    exact absurd hok (by simp)
  · intro hw
    obtain ⟨s', hs'⟩ := Requests.create_request_success hinit hauth now q rb bt u addr
      (by rw [Requests.validate_request_creation_eq_ok_iff]
          exact ⟨hq.1, hq.2, hw.1, haddr⟩)
      (by rw [Requests.validate_urgency_time_window_eq_ok_iff]
          exact ⟨hw.2.1, hw.2.2⟩)
    exact ⟨_, s', hs'⟩
  · intro hviol
    refine ⟨herr hviol, ?_⟩
    unfold Requests.create_step
    rw [herr hviol]

/-- C8: With a valid quantity and an authorized bank, register_blood at
ledger time now succeeds exactly when expiration_timestamp is strictly
greater than now, at most 42 days out, and leaves more than one day of
shelf life (the 1-day-plus-epsilon floor, enforced by the second, separate
shelf-life check); any violation fails with InvalidExpiration and stores
nothing (the state is unchanged). -/
theorem c8_expiration_window (s : Inventory.InvState) (now bank q e : Nat)
    (bt : BloodType) (donor : Option Nat)
    (hadmin : s.admin = some bank) (hq : 100 ≤ q ∧ q ≤ 600) :
    ((∃ id s', Inventory.register_blood s now bank bt q e donor =
        Except.ok (id, s')) ↔
      (now < e ∧ e - now ≤ Inventory.MAX_EXPIRATION_DAYS * Inventory.SECONDS_PER_DAY ∧
        now + Inventory.SECONDS_PER_DAY < e)) ∧
    (¬(now < e ∧ e - now ≤ Inventory.MAX_EXPIRATION_DAYS * Inventory.SECONDS_PER_DAY ∧
        now + Inventory.SECONDS_PER_DAY < e) →
      Inventory.register_blood s now bank bt q e donor =
        Except.error .InvalidExpiration ∧
      Inventory.reg_step s ⟨now, bank, bt, q, e, donor⟩ = (none, s)) ∧
    Inventory.MAX_EXPIRATION_DAYS * Inventory.SECONDS_PER_DAY = 42 * 86400 ∧
    Inventory.SECONDS_PER_DAY = 86400 := by
  have herr : ¬(now < e ∧ e - now ≤ Inventory.MAX_EXPIRATION_DAYS * Inventory.SECONDS_PER_DAY ∧
      now + Inventory.SECONDS_PER_DAY < e) →
      Inventory.register_blood s now bank bt q e donor =
        Except.error .InvalidExpiration := by
    intro hviol
    by_cases hfirst : now < e ∧ e - now ≤ Inventory.MAX_EXPIRATION_DAYS * Inventory.SECONDS_PER_DAY
    · have hv1 : Inventory.validate_blood_registration now q e = Except.ok () := by
        rw [Inventory.validate_blood_registration_eq_ok_iff]
        exact ⟨hq.1, hq.2, hfirst.1, hfirst.2⟩
      refine Inventory.register_blood_lift_error_two hadmin now q e bt donor hv1
        (Inventory.validate_minimum_shelf_life_error now e ?_)
      by_contra hfloor
      exact hviol ⟨hfirst.1, hfirst.2, by omega⟩
    · exact Inventory.register_blood_lift_error_one hadmin now q e bt donor
        (Inventory.validate_blood_registration_expiration_error now q e hq hfirst)
  refine ⟨⟨?_, ?_⟩, ?_, rfl, rfl⟩
  · rintro ⟨id, s', hok⟩
    by_contra hviol
    rw [herr hviol] at hok
    exact absurd hok (by simp)
  · intro he
    obtain ⟨s', hs'⟩ := Inventory.register_blood_success hadmin now q e bt donor
      (by rw [Inventory.validate_blood_registration_eq_ok_iff]
          exact ⟨hq.1, hq.2, he.1, he.2.1⟩)
      (by rw [Inventory.validate_minimum_shelf_life_eq_ok_iff]
          exact he.2.2)
    exact ⟨_, s', hs'⟩
  · intro hviol
    refine ⟨herr hviol, ?_⟩
    unfold Inventory.reg_step
    rw [herr hviol]

end HealthChain

namespace HealthChain

/-- C9 counterexample: the claim that before initialize every reading
operation fails with NotInitialized and never yields an empty or zero
default is false at the freshly deployed states: get_hospital_requests on
the uninitialized request contract returns the empty sequence (its return
type has no error case), and the persisted blood-unit counter reads 0
(storage.rs get_blood_unit_counter's unwrap_or(0)). -/
theorem c9_counterexample :
    Requests.get_hospital_requests Requests.req_init_state 7 = [] ∧
    Inventory.Storage.get_blood_unit_counter Inventory.inv_init_state = 0 ∧
    Requests.Storage.is_initialized Requests.req_init_state = false ∧
    Inventory.inv_init_state.admin = none :=
  ⟨rfl, rfl, rfl, rfl⟩

/-- C9 (amended): before initialize, every state-mutating operation
(register_blood; create_request, approve_request, cancel_request,
authorize_hospital, revoke_hospital) fails with NotInitialized, but the
read-only list/query operations return the empty-sequence default and the
persisted counters read as zero rather than failing. -/
theorem c9_uninitialized_behaviour (si : Inventory.InvState) (sr : Requests.ReqState)
    (h1 : si.admin = none) (h2 : sr.admin = none) :
    (∀ (now bank : Nat) (bt : BloodType) (q e : Nat) (donor : Option Nat),
      Inventory.register_blood si now bank bt q e donor =
        Except.error .NotInitialized) ∧
    (∀ (now hosp : Nat) (bt : BloodType) (q : Nat) (u : Requests.UrgencyLevel)
        (rb : Nat) (addr : String),
      Requests.create_request sr now hosp bt q u rb addr =
        Except.error .NotInitialized) ∧
    (∀ now id, Requests.approve_request sr now id = Except.error .NotInitialized) ∧
    (∀ now id c, Requests.cancel_request sr now id c =
      Except.error .NotInitialized) ∧
    (∀ hosp, Requests.authorize_hospital sr hosp = Except.error .NotInitialized) ∧
    (∀ hosp, Requests.revoke_hospital sr hosp = Except.error .NotInitialized) ∧
    (∀ hosp, Requests.get_hospital_requests Requests.req_init_state hosp = []) ∧
    (∀ st, Requests.get_requests_by_status Requests.req_init_state st = []) ∧
    Inventory.Storage.get_blood_unit_counter Inventory.inv_init_state = 0 := by
  have hinit : Requests.Storage.is_initialized sr = false := by
    simp [Requests.Storage.is_initialized, h2]
  refine ⟨?_, ?_, ?_, ?_, ?_, ?_, fun _ => rfl, fun _ => rfl, rfl⟩
  · intro now bank bt q e donor
    unfold Inventory.register_blood
    rw [h1]
    rfl
  · intro now hosp bt q u rb addr
    unfold Requests.create_request
    rw [hinit]
    rfl
  · intro now id
    unfold Requests.approve_request
    rw [hinit]
    rfl
  · intro now id c
    unfold Requests.cancel_request
    rw [hinit]
    rfl
  · intro hosp
    unfold Requests.authorize_hospital
    rw [hinit]
    rfl
  · intro hosp
    unfold Requests.revoke_hospital
    rw [hinit]
    rfl

/-- C10: In the inventory contract a bank is authorized exactly when its
address is the admin set at initialization: register_blood with any other
bank fails with NotAuthorizedBloodBank, a register_blood by the admin never
fails with NotAuthorizedBloodBank (its only validation failures are
InvalidQuantity and InvalidExpiration), and no public operation of the
contract changes which banks are authorized once the admin is set — there
is no separate allow-list. -/
theorem c10_bank_is_admin (s : Inventory.InvState) (a : Nat)
    (hadmin : s.admin = some a) :
    (∀ b, Inventory.Storage.is_authorized_bank s b = true ↔ b = a) ∧
    (∀ (now bank : Nat) (bt : BloodType) (q e : Nat) (donor : Option Nat),
      bank ≠ a →
      Inventory.register_blood s now bank bt q e donor =
        Except.error .NotAuthorizedBloodBank) ∧
    (∀ (now : Nat) (bt : BloodType) (q e : Nat) (donor : Option Nat)
        (err : ContractError),
      Inventory.register_blood s now a bt q e donor = Except.error err →
      err = .InvalidQuantity ∨ err = .InvalidExpiration) ∧
    (∀ (op : Inventory.InvOp) (b : Nat),
      Inventory.Storage.is_authorized_bank (Inventory.inv_apply_op s op) b =
        Inventory.Storage.is_authorized_bank s b) := by
  refine ⟨?_, ?_, ?_, ?_⟩
  · intro b
    simp only [Inventory.Storage.is_authorized_bank, hadmin, beq_iff_eq,
      Option.some.injEq]
    exact eq_comm
  · intro now bank bt q e donor hbank
    have hb : Inventory.Storage.is_authorized_bank s bank = false := by
      simp [Inventory.Storage.is_authorized_bank, hadmin]
      intro hh
      exact absurd hh.symm hbank
    unfold Inventory.register_blood
    rw [hb, hadmin]
    rfl
  · intro now bt q e donor err h
    exact Inventory.register_blood_admin_error_kinds hadmin h
  · intro op b
    cases op with
    | init_op a' =>
      show Inventory.Storage.is_authorized_bank
        (match Inventory.init_contract s a' with
         | .ok s' => s' | .error _ => s) b = _
      unfold Inventory.init_contract
      rw [hadmin]
      rfl
    | register_op att =>
      show Inventory.Storage.is_authorized_bank (Inventory.reg_step s att).2 b = _
      rcases Inventory.reg_step_cases s att with ⟨-, h2⟩ | ⟨id, s', -, h2, hreg⟩
      · rw [h2]
      · rw [h2]
        obtain ⟨-, -, -, hadm⟩ := Inventory.register_blood_ok_core hreg
        unfold Inventory.Storage.is_authorized_bank
        rw [hadm]
    | get_op id => rfl

end HealthChain

namespace HealthChain

/-- C1 witness: from the fresh inventory state, two valid registrations
with a quantity-rejected attempt between them return ids 1 and 2. -/
theorem c1_witness :
    (Inventory.reg_run inv_s0
      [⟨1000, 99, .APositive, 450, 1000 + 30 * 86400, none⟩,
       ⟨1000, 99, .APositive, 50, 1000 + 30 * 86400, none⟩,
       ⟨1000, 99, .BPositive, 450, 1000 + 30 * 86400, none⟩]).1 = [1, 2] := by
  have h := c1_sequential_ids.1 inv_s0
    [⟨1000, 99, .APositive, 450, 1000 + 30 * 86400, none⟩,
     ⟨1000, 99, .APositive, 50, 1000 + 30 * 86400, none⟩,
     ⟨1000, 99, .BPositive, 450, 1000 + 30 * 86400, none⟩] rfl
  exact h.trans (by decide)

/-- C2 witness: the bucket invariant holds in the concrete reachable state
after initialize, authorize, create and approve. -/
theorem c2_witness :
    Requests.status_buckets_ok (Requests.run_ops Requests.req_init_state
      [.init_op 99, .auth_op 5, .create_op wit_attempt,
       .approve_op wit_time 1]) :=
  c2_status_index_integrity.1 _

/-- C3 witness: on the concrete cancelled (terminal) request, approve
fails with InvalidStatusTransition and cancel with CannotCancelRequest. -/
theorem c3_witness :
    Requests.approve_request req_s4 wit_time 1 =
      Except.error .InvalidStatusTransition ∧
    Requests.cancel_request req_s4 wit_time 1 5 =
      Except.error .CannotCancelRequest := by
  have h := c3_terminal_statuses req_s4 wit_time 1 5 wit_request_cancelled
    (by decide) (by decide) (Or.inl (by decide))
  exact h.1 (Or.inr (Or.inl rfl))

/-- C4 witness: past the concrete request's deadline, approve fails with
Expired while cancel still succeeds. -/
theorem c4_witness :
    Requests.approve_request req_s2 (wit_time + 2 * 86400 + 1) 1 =
      Except.error .Expired ∧
    (∃ s', Requests.cancel_request req_s2 (wit_time + 2 * 86400 + 1) 1 5 =
      Except.ok s') := by
  have h := c4_expired_approval req_s2 (wit_time + 2 * 86400 + 1) 1 5 wit_request
    (by decide) (by decide) (by decide) (by decide) (Or.inl (by decide))
  exact ⟨h.1, h.2.2⟩

/-- C5 witness: get after the concrete creations returns the created
records field for field. -/
theorem c5_witness :
    Inventory.get_blood_unit inv_s1 1 =
      Except.ok ⟨1, .APositive, 450, 99, some 7, 1000, 1000 + 30 * 86400,
        .Available, []⟩ ∧
    Requests.get_request req_s2 1 = Except.ok wit_request := by
  constructor
  · exact c5_round_trip.1 inv_s0 1000 99 450 (1000 + 30 * 86400) .APositive
      (some 7) 1 inv_s1 (by rfl)
  · exact c5_round_trip.2 req_s1 wit_time 5 450 (wit_time + 2 * 86400) .APositive
      .Normal "123 Hospital Street" 1 req_s2 (by rfl)

/-- C6 witness: quantity 50 fails with InvalidQuantity, boundary quantity
100 succeeds, and 20000 fails on the request side. -/
theorem c6_witness :
    Inventory.register_blood inv_s0 1000 99 .APositive 50 (1000 + 30 * 86400)
      none = Except.error .InvalidQuantity ∧
    (∃ s', Inventory.register_blood inv_s0 1000 99 .APositive 100
      (1000 + 30 * 86400) none = Except.ok (1, s')) ∧
    Requests.create_request req_s1 wit_time 5 .APositive 20000 .Normal
      (wit_time + 7 * 86400) "123 Hospital Street" =
        Except.error .InvalidQuantity := by
  have hi := c6_quantity_bounds.1 inv_s0 1000 99 50 (1000 + 30 * 86400)
    .APositive none (by decide)
  have hi2 := c6_quantity_bounds.1 inv_s0 1000 99 100 (1000 + 30 * 86400)
    .APositive none (by decide)
  have hr := c6_quantity_bounds.2 req_s1 wit_time 5 20000 (wit_time + 7 * 86400)
    .APositive .Normal "123 Hospital Street" (by decide) (by decide)
  refine ⟨(hi.1 (by decide)).1, ?_, (hr.1 (by decide)).1⟩
  obtain ⟨s', hs⟩ := hi2.2 (by decide) (by decide)
  exact ⟨s', hs⟩

/-- C7 witness: a Critical request with a 2-hour lead succeeds while a
30-minute lead fails with InvalidRequiredBy. -/
theorem c7_witness :
    (∃ id s', Requests.create_request req_s1 wit_time 5 .APositive 450 .Critical
      (wit_time + 2 * 3600) "123 Hospital Street" = Except.ok (id, s')) ∧
    Requests.create_request req_s1 wit_time 5 .APositive 450 .Critical
      (wit_time + 1800) "123 Hospital Street" =
        Except.error .InvalidRequiredBy := by
  have h1 := c7_lead_time_window req_s1 wit_time 5 450 (wit_time + 2 * 3600)
    .APositive .Critical "123 Hospital Street" (by decide) (by decide)
    (by decide) (by decide)
  have h2 := c7_lead_time_window req_s1 wit_time 5 450 (wit_time + 1800)
    .APositive .Critical "123 Hospital Street" (by decide) (by decide)
    (by decide) (by decide)
  exact ⟨h1.1.mpr (by decide), (h2.2.1 (by decide)).1⟩

/-- C8 witness: a 30-day expiration succeeds while a 12-hour shelf life
fails with InvalidExpiration. -/
theorem c8_witness :
    (∃ id s', Inventory.register_blood inv_s0 1000 99 .APositive 450
      (1000 + 30 * 86400) none = Except.ok (id, s')) ∧
    Inventory.register_blood inv_s0 1000 99 .APositive 450 (1000 + 43200)
      none = Except.error .InvalidExpiration := by
  have h1 := c8_expiration_window inv_s0 1000 99 450 (1000 + 30 * 86400)
    .APositive none (by decide) (by decide)
  have h2 := c8_expiration_window inv_s0 1000 99 450 (1000 + 43200)
    .APositive none (by decide) (by decide)
  exact ⟨h1.1.mpr (by decide), (h2.2.1 (by decide)).1⟩

/-- C9 witness: on the freshly deployed states the mutating operations
fail with NotInitialized. -/
theorem c9_witness :
    Inventory.register_blood Inventory.inv_init_state 1000 99 .APositive 450
      (1000 + 30 * 86400) none = Except.error .NotInitialized ∧
    Requests.approve_request Requests.req_init_state 1000 1 =
      Except.error .NotInitialized := by
  have h := c9_uninitialized_behaviour Inventory.inv_init_state
    Requests.req_init_state rfl rfl
  exact ⟨h.1 1000 99 .APositive 450 (1000 + 30 * 86400) none, h.2.2.1 1000 1⟩

/-- C10 witness: bank 99 (the admin) is authorized and bank 5 is rejected
with NotAuthorizedBloodBank. -/
theorem c10_witness :
    Inventory.Storage.is_authorized_bank inv_s0 99 = true ∧
    Inventory.register_blood inv_s0 1000 5 .APositive 450 (1000 + 30 * 86400)
      none = Except.error .NotAuthorizedBloodBank := by
  have h := c10_bank_is_admin inv_s0 99 (by decide)
  exact ⟨(h.1 99).mpr rfl,
    h.2.1 1000 5 .APositive 450 (1000 + 30 * 86400) none (by decide)⟩

end HealthChain
